import Mathlib

/-!
Verification of the knowledgebase repository's core logic: a shallow
embedding of `scripts/validate.py`, `scripts/analyze_changes.py` and the
classification/ranking parts of `scripts/generate.py`, together with
theorems settling the specified properties of the validator, the
change-set differencer, the tag classifier and the ranker.

Python values that occur in the record store (strings, integers, lists,
None) are modelled by the inductive type `Val`; a YAML record (a Python
dict) is an association list from field names to values.  Python
exceptions that matter to the control flow (`ValidationError`, which the
validator catches, and `TypeError`/`AttributeError`, which it does not)
are modelled by `PyErr`.  String manipulation is implemented over
`List Char` so that every definition evaluates by `decide`.
-/

namespace KB

/-- Model of the Python values occurring in resource records. -/
inductive Val where
  | str : String → Val
  | int : Int → Val
  | list : List Val → Val
  | none : Val

mutual

/-- Boolean equality on `Val` (Python `==` for these value shapes). -/
def valBEq : Val → Val → Bool
  | .str a, .str b => a == b
  | .int a, .int b => a == b
  | .list a, .list b => valListBEq a b
  | .none, .none => true
  | _, _ => false

/-- Boolean equality on lists of `Val`, element by element. -/
def valListBEq : List Val → List Val → Bool
  | [], [] => true
  | a :: l, b :: m => valBEq a b && valListBEq l m
  | _, _ => false

end

mutual

theorem valBEq_iff : ∀ (a b : Val), valBEq a b = true ↔ a = b
  | .str _, b => by cases b <;> simp [valBEq]
  | .int _, b => by cases b <;> simp [valBEq]
  | .none, b => by cases b <;> simp [valBEq]
  | .list _, .str _ => by simp [valBEq]
  | .list _, .int _ => by simp [valBEq]
  | .list _, .none => by simp [valBEq]
  | .list l, .list m => by simp [valBEq, valListBEq_iff l m]

theorem valListBEq_iff : ∀ (l m : List Val), valListBEq l m = true ↔ l = m
  | [], [] => by simp [valListBEq]
  | [], _ :: _ => by simp [valListBEq]
  | _ :: _, [] => by simp [valListBEq]
  | a :: l, b :: m => by
      simp [valListBEq, valBEq_iff a b, valListBEq_iff l m]

end

instance : DecidableEq Val := fun a b => decidable_of_iff _ (valBEq_iff a b)

/-- A resource record: a Python dict as an association list (first binding wins). -/
abbrev Record := List (String × Val)

/-- `resource[k]` lookup returning `Option`: models `dict.get(k)` up to the default. -/
def dget (r : Record) (k : String) : Option Val :=
  (r.find? (fun p => p.1 == k)).map (fun p => p.2)

/-- `resource.get(k, d)`: lookup with default. -/
def dgetD (r : Record) (k : String) (d : Val) : Val :=
  (dget r k).getD d

/-- `resource.get(k)`: lookup with Python's `None` default. -/
def pyGet (r : Record) (k : String) : Val :=
  dgetD r k Val.none

/-- `k in resource`: field presence. -/
def dmem (r : Record) (k : String) : Bool :=
  (dget r k).isSome

/-- Python truthiness of a value (`bool(v)`). -/
def truthy : Val → Bool
  | .str s => !s.data.isEmpty
  | .int n => n != 0
  | .list l => !l.isEmpty
  | .none => false

/-- Python's `type(v).__name__` for the modelled values. -/
def pyTypeName : Val → String
  | .str _ => "str"
  | .int _ => "int"
  | .list _ => "list"
  | .none => "NoneType"

mutual
/-- Python `repr(v)` for the modelled values (strings assumed quote-free). -/
def pyRepr : Val → String
  | .str s => "\x27" ++ s ++ "\x27"
  | .int n => toString n
  | .list l => "[" ++ pyReprSep l ++ "]"
  | .none => "None"

/-- Comma-separated `repr`s of a list's elements, as Python prints a list body. -/
def pyReprSep : List Val → String
  | [] => ""
  | [v] => pyRepr v
  | v :: vs => pyRepr v ++ ", " ++ pyReprSep vs
end

/-- Python `str(v)`: the string itself for strings, otherwise `repr`. -/
def pyStr : Val → String
  | .str s => s
  | v => pyRepr v

/-- Python `repr` of a list of strings, e.g. how f-strings render field-name lists. -/
def pyReprStrList (l : List String) : String :=
  "[" ++ String.intercalate ", " (l.map (fun s => "\x27" ++ s ++ "\x27")) ++ "]"

/-- Exceptions relevant to the validator's control flow.  `validationError`
is the repository's own `ValidationError` (caught by `validate_resource`);
the others escape it. -/
inductive PyErr where
  | validationError : String → PyErr
  | typeError : String → PyErr
  | attributeError : String → PyErr
deriving DecidableEq, Repr

/-- `len(v)`: defined for strings and lists, a `TypeError` otherwise. -/
def pyLen : Val → Except PyErr Nat
  | .str s => .ok s.data.length
  | .list l => .ok l.length
  | v => .error (.typeError ("object of type \x27" ++ pyTypeName v ++ "\x27 has no len()"))

/-- `iter(v)` collected to a list: lists yield their elements, strings yield
their characters as one-character strings, anything else is a `TypeError`. -/
def pyIter : Val → Except PyErr (List Val)
  | .list l => .ok l
  | .str s => .ok (s.data.map (fun c => Val.str (String.mk [c])))
  | v => .error (.typeError ("\x27" ++ pyTypeName v ++ "\x27 object is not iterable"))

/-- ASCII lower-casing of a string, character by character (`str.lower`). -/
def lowerS (s : String) : String :=
  String.mk (s.data.map Char.toLower)

/-- Does `pat` occur at the head of `l`? -/
def leadsWith : List Char → List Char → Bool
  | [], _ => true
  | _ :: _, [] => false
  | p :: ps, c :: cs => p == c && leadsWith ps cs

/-- Python's substring test `pat in s` on character lists. -/
def hasSub (pat : List Char) : List Char → Bool
  | [] => pat.isEmpty
  | c :: cs => leadsWith pat (c :: cs) || hasSub pat cs

/-- `s.rstrip("/")`: drop every trailing slash. -/
def rstripSlash (l : List Char) : List Char :=
  (l.reverse.dropWhile (fun c => c == '/')).reverse

/-- Worker for `deleteSub`, structurally recursive on a fuel argument so
that it evaluates inside the kernel; called with fuel = the list's length,
which suffices because each step consumes at least one character. -/
def deleteSubFuel (pat : List Char) : Nat → List Char → List Char
  | 0, l => l
  | _ + 1, [] => []
  | n + 1, c :: cs =>
    if leadsWith pat (c :: cs) && !pat.isEmpty then
      deleteSubFuel pat n (List.drop (pat.length - 1) cs)
    else
      c :: deleteSubFuel pat n cs

/-- Python's `s.replace(pat, "")` for non-empty `pat`: delete every
non-overlapping occurrence, scanning left to right. -/
def deleteSub (pat l : List Char) : List Char :=
  deleteSubFuel pat l.length l

/-- `ResourceValidator._normalize_url`: lower-case, strip trailing slashes,
then delete every occurrence of the substring `www.`. -/
def normalize_url (url : String) : String :=
  String.mk (deleteSub "www.".data (rstripSlash (lowerS url).data))

/-! ### Date parsing (`datetime.strptime` with the formats the scripts use)

`%Y` matches exactly four digits, `%m` and `%d` one or two; the resulting
calendar date must be a real one (month 1–12, day within the month's
length, leap years included), mirroring `datetime`'s range checks. -/

/-- Digits of a decimal numeral to its value (caller checks digit-ness). -/
def digitsToNat (l : List Char) : Nat :=
  l.foldl (fun acc c => acc * 10 + (c.toNat - 48)) 0

/-- All characters are ASCII digits and the group is non-empty. -/
def allDigits (l : List Char) : Bool :=
  !l.isEmpty && l.all (fun c => c.isDigit)

/-- Gregorian leap year. -/
def isLeapYear (y : Nat) : Bool :=
  (y % 4 == 0 && y % 100 != 0) || y % 400 == 0

/-- Days in a month (month already validated to 1–12). -/
def daysInMonth (y m : Nat) : Nat :=
  if m == 2 then (if isLeapYear y then 29 else 28)
  else if m == 4 || m == 6 || m == 9 || m == 11 then 30
  else 31

/-- `strptime(s, "%Y-%m-%d")` as the parsed (year, month, day), when it succeeds. -/
def parseYMDv (s : String) : Option (Nat × Nat × Nat) :=
  match s.data.splitOn '-' with
  | [y, m, d] =>
    if allDigits y && y.length == 4 && allDigits m && m.length ≤ 2
        && allDigits d && d.length ≤ 2 then
      let yv := digitsToNat y
      let mv := digitsToNat m
      let dv := digitsToNat d
      if 1 ≤ yv && 1 ≤ mv && mv ≤ 12 && 1 ≤ dv && dv ≤ daysInMonth yv mv then
        some (yv, mv, dv)
      else Option.none
    else Option.none
  | _ => Option.none

/-- `strptime(s, "%Y-%m")` as the parsed (year, month, 1), when it succeeds. -/
def parseYMv (s : String) : Option (Nat × Nat × Nat) :=
  match s.data.splitOn '-' with
  | [y, m] =>
    if allDigits y && y.length == 4 && allDigits m && m.length ≤ 2 then
      let yv := digitsToNat y
      let mv := digitsToNat m
      if 1 ≤ yv && 1 ≤ mv && mv ≤ 12 then some (yv, mv, 1) else Option.none
    else Option.none
  | _ => Option.none

/-- `strptime(s, "%Y")` as the parsed (year, 1, 1), when it succeeds. -/
def parseYv (s : String) : Option (Nat × Nat × Nat) :=
  match s.data.splitOn '-' with
  | [y] =>
    if allDigits y && y.length == 4 then
      let yv := digitsToNat y
      if 1 ≤ yv then some (yv, 1, 1) else Option.none
    else Option.none
  | _ => Option.none

/-- The validator's date acceptance: `%Y-%m-%d` or `%Y-%m`. -/
def pyDateOk (s : String) : Bool :=
  (parseYMDv s).isSome || (parseYMv s).isSome

/-! ### URL parsing (the fragment of `urllib.parse.urlparse` the validator uses) -/

/-- Characters allowed in a URL scheme after the leading letter. -/
def isSchemeChar (c : Char) : Bool :=
  c.isAlphanum || c == '+' || c == '-' || c == '.'

/-- Split off `scheme:` when the prefix before the first `:` is a valid
scheme (leading letter, then scheme characters); the scheme is lower-cased
as `urlparse` does. -/
def splitScheme (l : List Char) : List Char × List Char :=
  match l.span (fun c => c != ':') with
  | (before, ':' :: rest) =>
    match before with
    | [] => ([], l)
    | c :: cs =>
      if c.isAlpha && cs.all isSchemeChar then (List.map Char.toLower (c :: cs), rest)
      else ([], l)
  | _ => ([], l)

/-- The `netloc` of what follows the scheme: present only after `//`, and
runs to the first `/`, `?` or `#`. -/
def netlocOf : List Char → List Char
  | '/' :: '/' :: rest => (rest.span (fun c => c != '/' && c != '?' && c != '#')).1
  | _ => []

/-- `urlparse(url)` restricted to the two components the validator tests. -/
def urlSchemeNetloc (url : String) : List Char × List Char :=
  let (scheme, rest) := splitScheme url.data
  (scheme, netlocOf rest)

/-! ### Schema constants from `scripts/validate.py` -/

def REQUIRED_FIELDS : List String :=
  ["id", "title", "url", "domain", "type", "maturity", "effort", "tags",
   "published", "last_updated", "summary", "why_useful", "good_for"]

def VALID_DOMAINS : List String :=
  ["LLMOps-RAG", "ML-Engineering", "DevOps-SRE", "Data-Engineering",
   "Security", "Systems-Tools", "System-Design", "Productivity"]

def VALID_TYPES : List String :=
  ["Repo", "Article", "Guide", "Talk", "Tool", "Framework", "Dataset", "Spec"]

def VALID_MATURITY : List String := ["Battle-tested", "Emerging", "Experimental"]

def VALID_EFFORT : List String := ["Low", "Medium", "High"]

def VALID_GOOD_FOR : List String := ["learning", "production", "POCs", "research", "templates"]

def string_fields : List String :=
  ["id", "title", "url", "type", "maturity", "effort", "summary", "why_useful"]

def list_fields : List String := ["domain", "tags", "good_for"]

def int_fields : List String := ["github_stars", "setup_time_minutes"]

def generic_phrases : List String :=
  ["great tool", "awesome", "amazing", "best", "perfect", "helps you",
   "makes it easy", "simple tool"]

/-! ### The validator (`ResourceValidator`)

Mutable validator state becomes explicit state passing: each private check
returns the updated state together with `some e` when it would raise `e`.
`validate_resource` runs the checks in source order, catches
`ValidationError` into the errors list, and lets any other exception
escape as `Except.error`. -/

/-- The validator's mutable state: errors, warnings, and the two seen-sets. -/
structure VState where
  errors : List String
  warnings : List String
  seen_ids : List Val
  seen_urls : List String
deriving DecidableEq

def emptyVState : VState := ⟨[], [], [], []⟩

/-- The record identifier used for diagnostics: `resource.get("id", f"resource_5")`. -/
def ridOf (r : Record) (index : Nat) : Val :=
  dgetD r "id" (Val.str ("resource_" ++ toString index))

/-- `ResourceValidator._validate_required_fields`. -/
def _validate_required_fields (r : Record) (s : VState) : VState × Option PyErr :=
  let missing := REQUIRED_FIELDS.filter (fun f => !(dmem r f))
  if missing.isEmpty then (s, Option.none)
  else (s, some (.validationError ("Missing required fields: " ++ pyReprStrList missing)))

/-- Is the value a string / list / integer (the `isinstance` checks). -/
def isStrV : Val → Bool
  | .str _ => true
  | _ => false

def isListV : Val → Bool
  | .list _ => true
  | _ => false

def isIntV : Val → Bool
  | .int _ => true
  | _ => false

/-- `ResourceValidator._validate_field_types`: three loops over the fixed
field lists, raising on the first present field of the wrong type. -/
def _validate_field_types (r : Record) (s : VState) : VState × Option PyErr :=
  match string_fields.find? (fun f => dmem r f && !isStrV (dgetD r f Val.none)) with
  | some f => (s, some (.validationError ("Field \x27" ++ f ++ "\x27 must be a string")))
  | Option.none =>
    match list_fields.find? (fun f => dmem r f && !isListV (dgetD r f Val.none)) with
    | some f => (s, some (.validationError ("Field \x27" ++ f ++ "\x27 must be a list")))
    | Option.none =>
      match int_fields.find? (fun f => dmem r f && !isIntV (dgetD r f Val.none)) with
      | some f => (s, some (.validationError ("Field \x27" ++ f ++ "\x27 must be an integer")))
      | Option.none => (s, Option.none)

/-- One date field check inside `_validate_field_values`: absent is fine, a
string must parse under `%Y-%m-%d` or `%Y-%m`, and a non-string makes
`datetime.strptime` raise `TypeError` (not the caught `ValueError`). -/
def checkDateField (r : Record) (f : String) : Option PyErr :=
  match dget r f with
  | Option.none => Option.none
  | some (.str sv) =>
    if pyDateOk sv then Option.none
    else some (.validationError ("Invalid date format for \x27" ++ f ++ "\x27: " ++ sv
      ++ ". Use YYYY-MM-DD or YYYY-MM"))
  | some v => some (.typeError ("strptime() argument 1 must be str, not " ++ pyTypeName v))

/-- `ResourceValidator._validate_field_values`: domain count and membership,
type/maturity/effort enumerations, the tag-count warning, then the two
date fields. -/
def _validate_field_values (r : Record) (rid : Val) (s : VState) : VState × Option PyErr :=
  let domains := dgetD r "domain" (Val.list [])
  match pyLen domains with
  | .error e => (s, some e)
  | .ok n =>
    if n > 2 then (s, some (.validationError "Maximum 2 domains allowed"))
    else
      match pyIter domains with
      | .error e => (s, some e)
      | .ok ds =>
        let invalid := ds.filter (fun d => !(VALID_DOMAINS.any (fun vd => d == Val.str vd)))
        if !invalid.isEmpty then
          (s, some (.validationError ("Invalid domains: " ++ pyRepr (Val.list invalid)
            ++ ". Valid: " ++ pyReprStrList VALID_DOMAINS)))
        else if !(VALID_TYPES.any (fun t => pyGet r "type" == Val.str t)) then
          (s, some (.validationError ("Invalid type: " ++ pyStr (pyGet r "type")
            ++ ". Valid: " ++ pyReprStrList VALID_TYPES)))
        else if !(VALID_MATURITY.any (fun t => pyGet r "maturity" == Val.str t)) then
          (s, some (.validationError ("Invalid maturity: " ++ pyStr (pyGet r "maturity")
            ++ ". Valid: " ++ pyReprStrList VALID_MATURITY)))
        else if !(VALID_EFFORT.any (fun t => pyGet r "effort" == Val.str t)) then
          (s, some (.validationError ("Invalid effort: " ++ pyStr (pyGet r "effort")
            ++ ". Valid: " ++ pyReprStrList VALID_EFFORT)))
        else
          match pyLen (dgetD r "tags" (Val.list [])) with
          | .error e => (s, some e)
          | .ok tn =>
            let s1 := if tn > 6 then
                { s with warnings := s.warnings ++ ["Resource \x27" ++ pyStr rid
                    ++ "\x27: Too many tags (" ++ toString tn ++ "), recommend max 6"] }
              else s
            match checkDateField r "published" with
            | some e => (s1, some e)
            | Option.none =>
              match checkDateField r "last_updated" with
              | some e => (s1, some e)
              | Option.none => (s1, Option.none)

/-- `ResourceValidator._validate_uniqueness`: the id is registered before
the URL is examined, so a duplicate-URL failure still registers the id. -/
def _validate_uniqueness (r : Record) (rid : Val) (s : VState) : VState × Option PyErr :=
  if s.seen_ids.contains rid then
    (s, some (.validationError ("Duplicate ID: " ++ pyStr rid)))
  else
    let s1 : VState := { s with seen_ids := s.seen_ids ++ [rid] }
    let url := pyGet r "url"
    if truthy url then
      match url with
      | .str u =>
        let nu := normalize_url u
        if s1.seen_urls.contains nu then
          (s1, some (.validationError ("Duplicate URL: " ++ u)))
        else
          ({ s1 with seen_urls := s1.seen_urls ++ [nu] }, Option.none)
      | v => (s1, some (.attributeError ("\x27" ++ pyTypeName v
          ++ "\x27 object has no attribute \x27lower\x27")))
    else (s1, Option.none)

/-- The generic-phrase warning text. -/
def phraseWarnMsg (rid : Val) (p : String) : String :=
  "Resource \x27" ++ pyStr rid ++ "\x27: Avoid generic phrase \x27" ++ p
    ++ "\x27, be more specific"

/-- The banned-phrase loop of `_validate_content_quality`: naive substring
matching on the lowered summary / why_useful, one warning per phrase, with
the `or` short-circuit preserved. -/
def phraseLoop (rid : Val) (ssum swhy : Val) : List String → List String × Option PyErr
  | [] => ([], Option.none)
  | p :: ps =>
    match ssum with
    | .str s1 =>
      if hasSub (lowerS p).data (lowerS s1).data then
        let rest := phraseLoop rid ssum swhy ps
        (phraseWarnMsg rid p :: rest.1, rest.2)
      else
        match swhy with
        | .str s2 =>
          if hasSub (lowerS p).data (lowerS s2).data then
            let rest := phraseLoop rid ssum swhy ps
            (phraseWarnMsg rid p :: rest.1, rest.2)
          else phraseLoop rid ssum swhy ps
        | v => ([], some (.attributeError ("\x27" ++ pyTypeName v
            ++ "\x27 object has no attribute \x27lower\x27")))
    | v => ([], some (.attributeError ("\x27" ++ pyTypeName v
        ++ "\x27 object has no attribute \x27lower\x27")))

/-- `ResourceValidator._validate_content_quality`: length warnings for
summary, why_useful and title, then the banned-phrase loop. -/
def _validate_content_quality (r : Record) (rid : Val) (s : VState) : VState × Option PyErr :=
  let summary := dgetD r "summary" (Val.str "")
  match pyLen summary with
  | .error e => (s, some e)
  | .ok slen =>
    let sA : VState :=
      if slen < 50 then
        { s with warnings := s.warnings ++ ["Resource \x27" ++ pyStr rid
            ++ "\x27: Summary too short (" ++ toString slen ++ " chars), recommend 50+"] }
      else if slen > 300 then
        { s with warnings := s.warnings ++ ["Resource \x27" ++ pyStr rid
            ++ "\x27: Summary too long (" ++ toString slen ++ " chars), recommend under 300"] }
      else s
    let why := dgetD r "why_useful" (Val.str "")
    match pyLen why with
    | .error e => (sA, some e)
    | .ok wlen =>
      let sB : VState :=
        if wlen < 30 then
          { sA with warnings := sA.warnings ++ ["Resource \x27" ++ pyStr rid
              ++ "\x27: \x27why_useful\x27 too short, be more specific"] }
        else sA
      let title := dgetD r "title" (Val.str "")
      match pyLen title with
      | .error e => (sB, some e)
      | .ok tlen =>
        let sC : VState :=
          if tlen > 50 then
            { sB with warnings := sB.warnings ++ ["Resource \x27" ++ pyStr rid
                ++ "\x27: Title too long, consider shortening"] }
          else sB
        let pw := phraseLoop rid summary why generic_phrases
        ({ sC with warnings := sC.warnings ++ pw.1 }, pw.2)

/-- Word characters of the GitHub URL regex character class `[\w\-\.]` (ASCII). -/
def ghWordChar (c : Char) : Bool :=
  c.isAlphanum || c == '_' || c == '-' || c == '.'

/-- Strip an exact leading occurrence of `p` from `l`. -/
def dropLead : List Char → List Char → Option (List Char)
  | [], l => some l
  | _ :: _, [] => Option.none
  | p :: ps, c :: cs => if p == c then dropLead ps cs else Option.none

/-- `re.match(r"https://github\.com/[\w\-\.]+/[\w\-\.]+/?$", url)` as a Bool. -/
def githubUrlOk (u : String) : Bool :=
  match dropLead ("https://github.com/").data u.data with
  | Option.none => false
  | some rest =>
    match rest.span ghWordChar with
    | ([], _) => false
    | (_ :: _, rest1) =>
      match rest1 with
      | '/' :: rest2 =>
        let rp := rest2.span ghWordChar
        !rp.1.isEmpty && (rp.2.isEmpty || rp.2 == ['/'])
      | _ => false

/-- `ResourceValidator._validate_url_format`: scheme+netloc check (error),
HTTPS preference and GitHub URL shape (warnings). -/
def _validate_url_format (r : Record) (rid : Val) (s : VState) : VState × Option PyErr :=
  let url := pyGet r "url"
  if !truthy url then (s, Option.none)
  else
    match url with
    | .str u =>
      let pr := urlSchemeNetloc u
      if pr.1.isEmpty || pr.2.isEmpty then
        (s, some (.validationError ("Invalid URL format: " ++ u)))
      else
        let sA : VState :=
          if pr.1 ≠ "https".data then
            { s with warnings := s.warnings ++ ["Resource \x27" ++ pyStr rid
                ++ "\x27: Consider HTTPS URL if available"] }
          else s
        let sB : VState :=
          if hasSub ("github.com").data u.data && !githubUrlOk u then
            { sA with warnings := sA.warnings ++ ["Resource \x27" ++ pyStr rid
                ++ "\x27: GitHub URL should be in format https://github.com/owner/repo"] }
          else sA
        (sB, Option.none)
    | v => (s, some (.typeError ("expected string or bytes-like object, got "
        ++ pyTypeName v)))

/-- The `except ValidationError` handler of `validate_resource`: a
`ValidationError` becomes an error entry attributed to the record's
identifier; any other exception escapes. -/
def catchVE (rid : Val) (s : VState) (e : PyErr) : Except PyErr VState :=
  match e with
  | .validationError m =>
    .ok { s with errors := s.errors ++ ["Resource \x27" ++ pyStr rid ++ "\x27: " ++ m] }
  | e => .error e

/-- `ResourceValidator.validate_resource`: the six checks in source order. -/
def validate_resource (r : Record) (index : Nat) (s : VState) : Except PyErr VState :=
  let rid := ridOf r index
  match _validate_required_fields r s with
  | (s1, some e) => catchVE rid s1 e
  | (s1, Option.none) =>
    match _validate_field_types r s1 with
    | (s2, some e) => catchVE rid s2 e
    | (s2, Option.none) =>
      match _validate_field_values r rid s2 with
      | (s3, some e) => catchVE rid s3 e
      | (s3, Option.none) =>
        match _validate_uniqueness r rid s3 with
        | (s4, some e) => catchVE rid s4 e
        | (s4, Option.none) =>
          match _validate_content_quality r rid s4 with
          | (s5, some e) => catchVE rid s5 e
          | (s5, Option.none) =>
            match _validate_url_format r rid s5 with
            | (s6, some e) => catchVE rid s6 e
            | (s6, Option.none) => .ok s6

/-- The caller's loop `for i, resource in enumerate(resources):
validator.validate_resource(resource, i)`, aborting on an uncaught
exception. -/
def validateList : List Record → Nat → VState → Except PyErr VState
  | [], _, s => .ok s
  | r :: rs, i, s =>
    match validate_resource r i s with
    | .ok s1 => validateList rs (i + 1) s1
    | .error e => .error e

/-! ### The change-set differencer (`scripts/analyze_changes.py`)

`analyze_resources_changes` iterates `potentially_modified_ids`, a Python
`set`, whose iteration order is hash-dependent and not fixed by the source;
the embedding therefore takes that iteration order as an explicit
parameter `order`, constrained (where a theorem needs it) by `idSetEnum`
to enumerate exactly the id-set intersection, without repetition. -/

/-- The fixed comparison field set of `analyze_resources_changes`
(note: as in the source, it lists `domains`, not the record field `domain`). -/
def compare_fields : List String :=
  ["title", "url", "domains", "type", "maturity", "tags", "summary", "why_useful", "good_for"]

/-- Membership of a value in `{r.get('id') for r in rs if r.get('id')}`. -/
def inIds (rs : List Record) (v : Val) : Bool :=
  truthy v && rs.any (fun r => pyGet r "id" == v)

/-- `get_resource_by_id`: first record with that id, `{}` when absent. -/
def get_resource_by_id (rs : List Record) (v : Val) : Record :=
  match rs.find? (fun r => pyGet r "id" == v) with
  | some r => r
  | Option.none => []

/-- Does some comparison field differ between the two records (`.get`, so a
missing field compares as `None`)? -/
def differsOn (c p : Record) : Bool :=
  compare_fields.any (fun f => !(pyGet c f == pyGet p f))

/-- The differencer's output: the four keys of the returned dict. -/
structure ChangeReport where
  new_resources : List Record
  modified_resources : List Record
  removed_resources : List Record
  validation_warnings : List String
deriving DecidableEq

/-- The pure core of `analyze_resources_changes`, after the two snapshots
and the validation warnings have been loaded: `order` is the iteration
order of the set `current_ids & previous_ids`. -/
def analyze_resources_changes (order : List Val) (current previous : List Record)
    (warnings : List String) : ChangeReport :=
  let newRs := current.filter
    (fun r => inIds current (pyGet r "id") && !(inIds previous (pyGet r "id")))
  let removedRs := previous.filter
    (fun r => inIds previous (pyGet r "id") && !(inIds current (pyGet r "id")))
  let modifiedRs := order.filterMap (fun v =>
    let c := get_resource_by_id current v
    let p := get_resource_by_id previous v
    if differsOn c p then some c else Option.none)
  ⟨newRs, modifiedRs, removedRs, warnings.take 10⟩

/-- `order` is a faithful enumeration of the set
`current_ids & previous_ids`: no repetition, every element is in the
intersection, and every intersection member occurs. -/
def idSetEnum (order : List Val) (current previous : List Record) : Prop :=
  order.Nodup
    ∧ (∀ v ∈ order, inIds current v = true ∧ inIds previous v = true)
    ∧ (∀ r ∈ current, inIds current (pyGet r "id") = true →
        inIds previous (pyGet r "id") = true → pyGet r "id" ∈ order)

instance (order : List Val) (current previous : List Record) :
    Decidable (idSetEnum order current previous) := by
  unfold idSetEnum
  infer_instance

/-! ### The ranker (`get_sort_key` in `scripts/generate.py`) -/

/-- `MATURITY_RANK` from `generate.py` — note it ranks `Adopted`, which is
not in the validator's `VALID_MATURITY`. -/
def MATURITY_RANK : List (String × Nat) :=
  [("Battle-tested", 0), ("Adopted", 1), ("Emerging", 2), ("Experimental", 3)]

def GOOD_FOR_PRIORITY : List String :=
  ["production", "mlops", "testing", "evaluation", "prototyping"]

/-- `MATURITY_RANK.get(v, 99)`. -/
def maturityRankGet (v : Val) : Nat :=
  match MATURITY_RANK.find? (fun p => v == Val.str p.1) with
  | some p => p.2
  | Option.none => 99

/-- Python `a or b`: the first operand if truthy, else the second. -/
def pyOr (a b : Val) : Val :=
  if truthy a then a else b

/-- `parse_date` from `generate.py`: falsy input or an unparseable string
gives 1900-01-01; a truthy non-string reaches `strptime` and raises
`TypeError`. -/
def parse_date (v : Val) : Except PyErr (Nat × Nat × Nat) :=
  if !truthy v then .ok (1900, 1, 1)
  else
    match v with
    | .str s =>
      .ok (match parseYMDv s with
        | some t => t
        | Option.none =>
          match parseYMv s with
          | some t => t
          | Option.none =>
            match parseYv s with
            | some t => t
            | Option.none => (1900, 1, 1))
    | v => .error (.typeError ("strptime() argument 1 must be str, not " ++ pyTypeName v))

/-- Days from 1970-01-01 to the given civil date (the standard civil-days
computation); all intermediate divisions are on non-negative quantities
here because the parsed years are at least 1. -/
def daysFromCivil (y m d : Nat) : Int :=
  let yy : Int := (y : Int) - (if m ≤ 2 then 1 else 0)
  let era : Int := (if 0 ≤ yy then yy else yy - 399) / 400
  let yoe : Int := yy - era * 400
  let mp : Int := (m : Int) + (if m > 2 then -3 else 9)
  let doy : Int := (153 * mp + 2) / 5 + (d : Int) - 1
  let doe : Int := yoe * 365 + yoe / 4 - yoe / 100 + doy
  era * 146097 + doe - 719468

/-- `int(datetime(y, m, d).timestamp())`, modelling the timestamp as UTC
midnight: seconds since the epoch. -/
def timestampOf (t : Nat × Nat × Nat) : Int :=
  86400 * daysFromCivil t.1 t.2.1 t.2.2

/-- `-(resource.get("github_stars") or 0)`. -/
def starsKeyE (v : Val) : Except PyErr Int :=
  match pyOr v (Val.int 0) with
  | .int n => .ok (-n)
  | w => .error (.typeError ("bad operand type for unary -: \x27" ++ pyTypeName w ++ "\x27"))

/-- `GOOD_FOR_PRIORITY.index(g)` when `g in GOOD_FOR_PRIORITY`. -/
def goodForIdx (g : Val) : Option Nat :=
  GOOD_FOR_PRIORITY.findIdx? (fun p => g == Val.str p)

/-- `min([GOOD_FOR_PRIORITY.index(g) for g in good_for if g in
GOOD_FOR_PRIORITY] or [len(GOOD_FOR_PRIORITY)])`. -/
def goodForKeyE (v : Val) : Except PyErr Nat :=
  match pyIter v with
  | .error e => .error e
  | .ok gs => .ok ((gs.filterMap goodForIdx).foldl Nat.min GOOD_FOR_PRIORITY.length)

/-- The composite sort key `(maturity_rank, date_key, github_stars,
good_for_key, title)`; the title is kept as its character list so that the
comparison is Python's code-point order. -/
structure SortKey where
  mat : Nat
  dateKey : Int
  stars : Int
  goodFor : Nat
  title : List Char
deriving DecidableEq

/-- Python `str <`: lexicographic code-point comparison. -/
def listCharLt : List Char → List Char → Bool
  | [], [] => false
  | [], _ :: _ => true
  | _ :: _, [] => false
  | a :: xs, b :: ys => a.toNat < b.toNat || (a == b && listCharLt xs ys)

/-- Python tuple `<` on the composite key: lexicographic, most significant
component first. -/
def sortKeyLt (a b : SortKey) : Bool :=
  a.mat < b.mat || (a.mat == b.mat &&
    (a.dateKey < b.dateKey || (a.dateKey == b.dateKey &&
      (a.stars < b.stars || (a.stars == b.stars &&
        (a.goodFor < b.goodFor || (a.goodFor == b.goodFor &&
          listCharLt a.title b.title)))))))

/-- `get_sort_key` from `generate.py`. -/
def get_sort_key (r : Record) : Except PyErr SortKey :=
  let mrank := maturityRankGet (dgetD r "maturity" (Val.str ""))
  let dv := pyOr (pyGet r "last_updated") (pyOr (pyGet r "published") (pyGet r "added"))
  match parse_date dv with
  | .error e => .error e
  | .ok ymd =>
    let dateKey : Int := -(timestampOf ymd)
    match starsKeyE (pyGet r "github_stars") with
    | .error e => .error e
    | .ok stars =>
      match goodForKeyE (dgetD r "good_for" (Val.list [])) with
      | .error e => .error e
      | .ok gf =>
        match dgetD r "title" (Val.str "") with
        | .str t => .ok ⟨mrank, dateKey, stars, gf, (lowerS t).data⟩
        | v => .error (.attributeError ("\x27" ++ pyTypeName v
            ++ "\x27 object has no attribute \x27lower\x27"))

/-- Stable insertion: place `x` before the first element `y` with
`le x y`; used to model Python's stable ascending sort. -/
def insertSorted (le : α → α → Bool) (x : α) : List α → List α
  | [] => [x]
  | y :: ys => if le x y then x :: y :: ys else y :: insertSorted le x ys

/-- Stable sort by a boolean `≤`; for a total preorder this computes the
same list as Python's stable `list.sort`. -/
def sortByLe (le : α → α → Bool) : List α → List α
  | [] => []
  | x :: xs => insertSorted le x (sortByLe le xs)

/-- Keyed comparison used by the sort: `a ≤ b` iff not `key b < key a`. -/
def keyedLe (a b : Record × SortKey) : Bool :=
  !(sortKeyLt b.2 a.2)

/-- Decorate each record with its sort key, left to right, propagating the
first key error (how `list.sort(key=get_sort_key)` fails). -/
def mapKeyedE : List Record → Except PyErr (List (Record × SortKey))
  | [] => .ok []
  | r :: rs =>
    match get_sort_key r with
    | .error e => .error e
    | .ok k =>
      match mapKeyedE rs with
      | .error e => .error e
      | .ok ps => .ok ((r, k) :: ps)

/-- `subcat_resources.sort(key=get_sort_key)`. -/
def sortGroupE (l : List Record) : Except PyErr (List Record) :=
  match mapKeyedE l with
  | .error e => .error e
  | .ok ps => .ok ((sortByLe keyedLe ps).map Prod.fst)

/-! ### The classifier (`group_by_subcategory` in `scripts/generate.py`) -/

/-- `any(tag in tags for tag in ts)` over the lowered tag list. -/
def anyTagIn (ts : List String) (tags : List String) : Bool :=
  ts.any (fun t => tags.contains t)

/-- The subcategory label chain of `group_by_subcategory`, as the source
writes it: one `if/elif` cascade per domain, first match wins, with the
domain's fallback label in the `else` branch. -/
def subcatLabel (domain : String) (tags : List String) : String :=
  if domain == "AI-Engineering" then
    if anyTagIn ["agents", "mcp", "integration", "protocol"] tags then
      "Agent Systems & Integration"
    else if anyTagIn ["rag", "graph-rag", "knowledge-graphs", "retrieval"] tags then
      "RAG & Knowledge Systems"
    else if anyTagIn ["evaluation", "testing", "prompts"] tags then
      "Testing & Evaluation"
    else if anyTagIn ["training", "frameworks"] tags then
      "Training & Frameworks"
    else if anyTagIn ["architecture", "case-studies", "patterns"] tags then
      "Architecture & Best Practices"
    else "Core AI Tools"
  else if domain == "Platform-Engineering" then
    if anyTagIn ["performance", "monitoring", "observability"] tags then
      "Performance & Observability"
    else if anyTagIn ["infrastructure", "self-hosting", "catalog", "services"] tags then
      "Infrastructure & Services"
    else if anyTagIn ["containers", "docker", "logs"] tags then
      "Container Platforms"
    else if anyTagIn ["documentation", "diagrams", "architecture"] tags then
      "Documentation & Architecture"
    else "Platform Tools"
  else if domain == "Data-Engineering" then
    if anyTagIn ["datasets", "catalog", "discovery", "public-data"] tags then
      "Data Discovery & Catalogs"
    else if anyTagIn ["sql", "database", "nl2sql"] tags then
      "Query & Database Tools"
    else if anyTagIn ["pipelines", "etl", "processing"] tags then
      "Pipelines & Processing"
    else "Data Infrastructure"
  else if domain == "Security" then
    if anyTagIn ["vulnerability-scanning", "containers", "supply-chain"] tags then
      "Vulnerability Management"
    else if anyTagIn ["kubernetes", "admission-controller", "configuration"] tags then
      "Infrastructure Security"
    else if anyTagIn ["secrets", "auth", "compliance"] tags then
      "Access & Compliance"
    else "Security Tools"
  else if domain == "Developer-Tools" then
    if anyTagIn ["code-formatting", "linting", "git-hooks", "pre-commit"] tags then
      "Code Quality & Standards"
    else if anyTagIn ["browser-automation", "chrome-extension"] tags then
      "Browser & Web Tools"
    else if anyTagIn ["creative-tools"] tags then
      "Creative & Specialized Tools"
    else "Development Utilities"
  else "Tools & Utilities"

/-- The same per-domain rules as an ordered data table of
(tag set, label) pairs — the spec's view of the classifier. -/
def ruleTable (domain : String) : List (List String × String) :=
  if domain == "AI-Engineering" then
    [(["agents", "mcp", "integration", "protocol"], "Agent Systems & Integration"),
     (["rag", "graph-rag", "knowledge-graphs", "retrieval"], "RAG & Knowledge Systems"),
     (["evaluation", "testing", "prompts"], "Testing & Evaluation"),
     (["training", "frameworks"], "Training & Frameworks"),
     (["architecture", "case-studies", "patterns"], "Architecture & Best Practices")]
  else if domain == "Platform-Engineering" then
    [(["performance", "monitoring", "observability"], "Performance & Observability"),
     (["infrastructure", "self-hosting", "catalog", "services"], "Infrastructure & Services"),
     (["containers", "docker", "logs"], "Container Platforms"),
     (["documentation", "diagrams", "architecture"], "Documentation & Architecture")]
  else if domain == "Data-Engineering" then
    [(["datasets", "catalog", "discovery", "public-data"], "Data Discovery & Catalogs"),
     (["sql", "database", "nl2sql"], "Query & Database Tools"),
     (["pipelines", "etl", "processing"], "Pipelines & Processing")]
  else if domain == "Security" then
    [(["vulnerability-scanning", "containers", "supply-chain"], "Vulnerability Management"),
     (["kubernetes", "admission-controller", "configuration"], "Infrastructure Security"),
     (["secrets", "auth", "compliance"], "Access & Compliance")]
  else if domain == "Developer-Tools" then
    [(["code-formatting", "linting", "git-hooks", "pre-commit"], "Code Quality & Standards"),
     (["browser-automation", "chrome-extension"], "Browser & Web Tools"),
     (["creative-tools"], "Creative & Specialized Tools")]
  else []

/-- Each domain's designated fallback label. -/
def fallbackLabel (domain : String) : String :=
  if domain == "AI-Engineering" then "Core AI Tools"
  else if domain == "Platform-Engineering" then "Platform Tools"
  else if domain == "Data-Engineering" then "Data Infrastructure"
  else if domain == "Security" then "Security Tools"
  else if domain == "Developer-Tools" then "Development Utilities"
  else "Tools & Utilities"

/-- First-match-wins evaluation of an ordered rule table. -/
def firstMatchLabel : List (List String × String) → String → List String → String
  | [], fb, _ => fb
  | rule :: rest, fb, tags =>
    if anyTagIn rule.1 tags then rule.2 else firstMatchLabel rest fb tags

/-- `[tag.lower() for tag in tags]`, erroring on the first non-string tag. -/
def mapLowerE : List Val → Except PyErr (List String)
  | [] => .ok []
  | .str s :: rest =>
    match mapLowerE rest with
    | .error e => .error e
    | .ok ls => .ok (lowerS s :: ls)
  | v :: _ => .error (.attributeError ("\x27" ++ pyTypeName v
      ++ "\x27 object has no attribute \x27lower\x27"))

/-- The lowered tags of a record: `[tag.lower() for tag in
resource.get("tags", [])]` (a string iterates as its characters). -/
def lowerTagsE (r : Record) : Except PyErr (List String) :=
  match dgetD r "tags" (Val.list []) with
  | .list l => mapLowerE l
  | .str s => .ok (s.data.map (fun c => lowerS (String.mk [c])))
  | v => .error (.typeError ("\x27" ++ pyTypeName v ++ "\x27 object is not iterable"))

/-- `defaultdict(list)` in insertion order: append to the bucket when the
key exists, else add a new bucket at the end. -/
def addToGroup : List (String × List Record) → String → Record → List (String × List Record)
  | [], k, r => [(k, [r])]
  | (k1, l) :: rest, k, r =>
    if k1 == k then (k1, l ++ [r]) :: rest
    else (k1, l) :: addToGroup rest k r

/-- The grouping loop of `group_by_subcategory`. -/
def groupGo (domain : String) : List Record → List (String × List Record) →
    Except PyErr (List (String × List Record))
  | [], g => .ok g
  | r :: rs, g =>
    match lowerTagsE r with
    | .error e => .error e
    | .ok ts => groupGo domain rs (addToGroup g (subcatLabel domain ts) r)

/-- The final pass sorting every bucket with `get_sort_key`. -/
def sortAllGroupsE : List (String × List Record) →
    Except PyErr (List (String × List Record))
  | [] => .ok []
  | (k, l) :: rest =>
    match sortGroupE l with
    | .error e => .error e
    | .ok l1 =>
      match sortAllGroupsE rest with
      | .error e => .error e
      | .ok rest1 => .ok ((k, l1) :: rest1)

/-- `group_by_subcategory(resources, domain)`. -/
def group_by_subcategory (resources : List Record) (domain : String) :
    Except PyErr (List (String × List Record)) :=
  match groupGo domain resources [] with
  | .error e => .error e
  | .ok g => sortAllGroupsE g

/-- Bucket lookup in the grouped result (`subcategories[label]`, empty when
the label is absent). -/
def lookupGroup (g : List (String × List Record)) (k : String) : List Record :=
  match g.find? (fun p => p.1 == k) with
  | some p => p.2
  | Option.none => []

/-! ### Record validity

`recordValid` transcribes what "a valid record" means for the validator:
every required field present with the checked type, `domain` of length at
most 2 drawn from `VALID_DOMAINS`, `type`/`maturity`/`effort` in their
enumerations, both dates parsing under the accepted formats, the optional
integer fields integers when present, and a URL with scheme and host. -/

/-- Present and a string. -/
def strFieldOk (r : Record) (f : String) : Bool :=
  match dget r f with
  | some (.str _) => true
  | _ => false

/-- Present and a list. -/
def listFieldOk (r : Record) (f : String) : Bool :=
  match dget r f with
  | some (.list _) => true
  | _ => false

/-- Present with a value from the enumeration (hence a string). -/
def enumFieldOk (r : Record) (f : String) (vs : List String) : Bool :=
  match dget r f with
  | some v => vs.any (fun t => v == Val.str t)
  | Option.none => false

/-- Present, a string, and a well-formed `%Y-%m-%d` or `%Y-%m` date. -/
def dateFieldValid (r : Record) (f : String) : Bool :=
  match dget r f with
  | some (.str s) => pyDateOk s
  | _ => false

/-- Present, a list of at most two valid domains. -/
def domainFieldOk (r : Record) : Bool :=
  match dget r "domain" with
  | some (.list ds) =>
    decide (ds.length ≤ 2) && ds.all (fun d => VALID_DOMAINS.any (fun vd => d == Val.str vd))
  | _ => false

/-- Present, a string URL with non-empty scheme and host. -/
def urlFieldOk (r : Record) : Bool :=
  match dget r "url" with
  | some (.str u) => !(urlSchemeNetloc u).1.isEmpty && !(urlSchemeNetloc u).2.isEmpty
  | _ => false

/-- An optional integer field: absent, or present and an integer. -/
def optIntOk (r : Record) (f : String) : Bool :=
  match dget r f with
  | some v => isIntV v
  | Option.none => true

/-- A record that is valid in the sense of the validator's fatal rules. -/
def recordValid (r : Record) : Bool :=
  strFieldOk r "id" && strFieldOk r "title" && urlFieldOk r && domainFieldOk r
    && enumFieldOk r "type" VALID_TYPES && enumFieldOk r "maturity" VALID_MATURITY
    && enumFieldOk r "effort" VALID_EFFORT && listFieldOk r "tags"
    && dateFieldValid r "published" && dateFieldValid r "last_updated"
    && strFieldOk r "summary" && strFieldOk r "why_useful" && listFieldOk r "good_for"
    && optIntOk r "github_stars" && optIntOk r "setup_time_minutes"

theorem strFieldOk_iff {r : Record} {f : String} :
    strFieldOk r f = true ↔ ∃ s, dget r f = some (Val.str s) := by
  unfold strFieldOk
  cases h : dget r f with
  | none => simp
  | some v => cases v <;> simp

theorem listFieldOk_iff {r : Record} {f : String} :
    listFieldOk r f = true ↔ ∃ l, dget r f = some (Val.list l) := by
  unfold listFieldOk
  cases h : dget r f with
  | none => simp
  | some v => cases v <;> simp

theorem enumFieldOk_iff {r : Record} {f : String} {vs : List String} :
    enumFieldOk r f vs = true ↔
      ∃ t, dget r f = some (Val.str t) ∧ t ∈ vs := by
  unfold enumFieldOk
  cases h : dget r f with
  | none => simp
  | some v =>
    simp only [List.any_eq_true, Option.some.injEq]
    constructor
    · rintro ⟨t, ht, hbeq⟩
      exact ⟨t, beq_iff_eq.mp hbeq, ht⟩
    · rintro ⟨t, hv, ht⟩
      exact ⟨t, ht, by simp [hv]⟩

theorem dateFieldValid_iff {r : Record} {f : String} :
    dateFieldValid r f = true ↔
      ∃ s, dget r f = some (Val.str s) ∧ pyDateOk s = true := by
  unfold dateFieldValid
  cases h : dget r f with
  | none => simp
  | some v => cases v <;> simp

theorem domainFieldOk_iff {r : Record} :
    domainFieldOk r = true ↔
      ∃ ds, dget r "domain" = some (Val.list ds) ∧ ds.length ≤ 2
        ∧ ds.all (fun d => VALID_DOMAINS.any (fun vd => d == Val.str vd)) = true := by
  unfold domainFieldOk
  cases h : dget r "domain" with
  | none => simp
  | some v => cases v <;> simp

theorem urlFieldOk_iff {r : Record} :
    urlFieldOk r = true ↔
      ∃ u, dget r "url" = some (Val.str u)
        ∧ (urlSchemeNetloc u).1.isEmpty = false
        ∧ (urlSchemeNetloc u).2.isEmpty = false := by
  unfold urlFieldOk
  cases h : dget r "url" with
  | none => simp
  | some v => cases v <;> simp

theorem optIntOk_cases {r : Record} {f : String} (h : optIntOk r f = true) :
    dget r f = Option.none ∨ ∃ n, dget r f = some (Val.int n) := by
  unfold optIntOk at h
  cases hd : dget r f with
  | none => exact Or.inl rfl
  | some v => cases v <;> rw [hd] at h <;> simp [isIntV] at h ⊢

/-- Unpacking a valid record into per-field facts. -/
theorem recordValid_facts (r : Record) (hv : recordValid r = true) :
    (∃ s, dget r "id" = some (Val.str s)) ∧
    (∃ s, dget r "title" = some (Val.str s)) ∧
    (∃ u, dget r "url" = some (Val.str u) ∧ (urlSchemeNetloc u).1.isEmpty = false
      ∧ (urlSchemeNetloc u).2.isEmpty = false) ∧
    (∃ ds, dget r "domain" = some (Val.list ds) ∧ ds.length ≤ 2
      ∧ ds.all (fun d => VALID_DOMAINS.any (fun vd => d == Val.str vd)) = true) ∧
    (∃ t, dget r "type" = some (Val.str t) ∧ t ∈ VALID_TYPES) ∧
    (∃ t, dget r "maturity" = some (Val.str t) ∧ t ∈ VALID_MATURITY) ∧
    (∃ t, dget r "effort" = some (Val.str t) ∧ t ∈ VALID_EFFORT) ∧
    (∃ l, dget r "tags" = some (Val.list l)) ∧
    (∃ s, dget r "published" = some (Val.str s) ∧ pyDateOk s = true) ∧
    (∃ s, dget r "last_updated" = some (Val.str s) ∧ pyDateOk s = true) ∧
    (∃ s, dget r "summary" = some (Val.str s)) ∧
    (∃ s, dget r "why_useful" = some (Val.str s)) ∧
    (∃ l, dget r "good_for" = some (Val.list l)) ∧
    (dget r "github_stars" = Option.none ∨ ∃ n, dget r "github_stars" = some (Val.int n)) ∧
    (dget r "setup_time_minutes" = Option.none
      ∨ ∃ n, dget r "setup_time_minutes" = some (Val.int n)) := by
  simp only [recordValid, Bool.and_eq_true] at hv
  rcases hv with ⟨⟨⟨⟨⟨⟨⟨⟨⟨⟨⟨⟨⟨⟨h1, h2⟩, h3⟩, h4⟩, h5⟩, h6⟩, h7⟩, h8⟩,
    h9⟩, h10⟩, h11⟩, h12⟩, h13⟩, h14⟩, h15⟩
  exact ⟨strFieldOk_iff.mp h1, strFieldOk_iff.mp h2, urlFieldOk_iff.mp h3,
    domainFieldOk_iff.mp h4, enumFieldOk_iff.mp h5, enumFieldOk_iff.mp h6,
    enumFieldOk_iff.mp h7, listFieldOk_iff.mp h8, dateFieldValid_iff.mp h9,
    dateFieldValid_iff.mp h10, strFieldOk_iff.mp h11, strFieldOk_iff.mp h12,
    listFieldOk_iff.mp h13, optIntOk_cases h14, optIntOk_cases h15⟩

/-- A valid record passes the required-fields check without touching the state. -/
theorem required_pass (r : Record) (s : VState) (hv : recordValid r = true) :
    _validate_required_fields r s = (s, Option.none) := by
  obtain ⟨⟨i1, hid⟩, ⟨t1, htitle⟩, ⟨u1, hurl, -, -⟩, ⟨ds, hdom, -, -⟩, ⟨ty, htype, -⟩,
    ⟨ma, hmat, -⟩, ⟨ef, heff, -⟩, ⟨tl, htags⟩, ⟨pb, hpub, -⟩, ⟨lu, hlast, -⟩,
    ⟨sm, hsum⟩, ⟨wy, hwhy⟩, ⟨gd, hgood⟩, -, -⟩ := recordValid_facts r hv
  simp [_validate_required_fields, REQUIRED_FIELDS, dmem, List.filter,
    hid, htitle, hurl, hdom, htype, hmat, heff, htags, hpub, hlast, hsum, hwhy, hgood]

/-- A valid record passes the type checks without touching the state. -/
theorem types_pass (r : Record) (s : VState) (hv : recordValid r = true) :
    _validate_field_types r s = (s, Option.none) := by
  obtain ⟨⟨i1, hid⟩, ⟨t1, htitle⟩, ⟨u1, hurl, -, -⟩, ⟨ds, hdom, -, -⟩, ⟨ty, htype, -⟩,
    ⟨ma, hmat, -⟩, ⟨ef, heff, -⟩, ⟨tl, htags⟩, ⟨pb, hpub, -⟩, ⟨lu, hlast, -⟩,
    ⟨sm, hsum⟩, ⟨wy, hwhy⟩, ⟨gd, hgood⟩, hgs, hst⟩ := recordValid_facts r hv
  rcases hgs with hgs | ⟨n1, hgs⟩ <;> rcases hst with hst | ⟨n2, hst⟩ <;>
    simp [_validate_field_types, string_fields, list_fields, int_fields, dmem, dgetD,
      List.find?, isStrV, isListV, isIntV,
      hid, htitle, hurl, hdom, htype, hmat, heff, htags, hsum, hwhy, hgood, hgs, hst]

/-- A valid record passes the value checks, emitting at most the tag-count
warning: no error, and errors/seen-sets untouched. -/
theorem values_pass (r : Record) (rid : Val) (s : VState) (hv : recordValid r = true) :
    ∃ s2, _validate_field_values r rid s = (s2, Option.none) ∧ s2.errors = s.errors
      ∧ s2.seen_ids = s.seen_ids ∧ s2.seen_urls = s.seen_urls := by
  obtain ⟨⟨i1, hid⟩, ⟨t1, htitle⟩, ⟨u1, hurl, -, -⟩, ⟨ds, hdom, hlen, hall⟩,
    ⟨ty, htype, htyin⟩, ⟨ma, hmat, hmain⟩, ⟨ef, heff, hefin⟩, ⟨tl, htags⟩,
    ⟨pb, hpub, hpbok⟩, ⟨lu, hlast, hluok⟩, ⟨sm, hsum⟩, ⟨wy, hwhy⟩, ⟨gd, hgood⟩,
    -, -⟩ := recordValid_facts r hv
  have hnot2 : ¬ (ds.length > 2) := by omega
  have hfil : ds.filter (fun d => !(VALID_DOMAINS.any (fun vd => d == Val.str vd))) = [] := by
    rw [List.filter_eq_nil_iff]
    intro d hd
    simpa using List.all_eq_true.mp hall d hd
  have hty : (VALID_TYPES.any fun t => pyGet r "type" == Val.str t) = true := by
    simp only [pyGet, dgetD, htype, Option.getD_some, List.any_eq_true]
    exact ⟨ty, htyin, by simp⟩
  have hma : (VALID_MATURITY.any fun t => pyGet r "maturity" == Val.str t) = true := by
    simp only [pyGet, dgetD, hmat, Option.getD_some, List.any_eq_true]
    exact ⟨ma, hmain, by simp⟩
  have hef : (VALID_EFFORT.any fun t => pyGet r "effort" == Val.str t) = true := by
    simp only [pyGet, dgetD, heff, Option.getD_some, List.any_eq_true]
    exact ⟨ef, hefin, by simp⟩
  have hd1 : checkDateField r "published" = Option.none := by
    simp [checkDateField, hpub, hpbok]
  have hd2 : checkDateField r "last_updated" = Option.none := by
    simp [checkDateField, hlast, hluok]
  refine ⟨(if tl.length > 6 then
      { s with warnings := s.warnings ++ ["Resource \x27" ++ pyStr rid
          ++ "\x27: Too many tags (" ++ toString tl.length ++ "), recommend max 6"] }
    else s), ?_, ?_, ?_, ?_⟩
  · simp only [_validate_field_values, dgetD, hdom, htags, Option.getD_some, pyLen,
      hnot2, if_false, pyIter, hfil, hty, hma, hef, hd1, hd2]
    simp
  · split <;> rfl
  · split <;> rfl
  · split <;> rfl

/-- A URL whose parse has a non-empty scheme is itself non-empty, hence truthy. -/
theorem truthy_url_of_scheme (u : String)
    (h : (urlSchemeNetloc u).1.isEmpty = false) : truthy (Val.str u) = true := by
  obtain ⟨l⟩ := u
  cases l with
  | nil => exact absurd h (by decide)
  | cons c cs => simp [truthy]

/-- Uniqueness with a fresh id and fresh normalized URL: both get registered. -/
theorem uniq_fresh (r : Record) (rid : Val) (s : VState) (u : String)
    (hu : dget r "url" = some (Val.str u)) (hut : truthy (Val.str u) = true)
    (h1 : rid ∉ s.seen_ids) (h2 : normalize_url u ∉ s.seen_urls) :
    _validate_uniqueness r rid s =
      ({ s with seen_ids := s.seen_ids ++ [rid],
                seen_urls := s.seen_urls ++ [normalize_url u] }, Option.none) := by
  simp [_validate_uniqueness, pyGet, dgetD, hu, hut, h1, h2]

/-- Uniqueness with an already-seen id: raises at once, state untouched. -/
theorem uniq_dup_id (r : Record) (rid : Val) (s : VState) (h : rid ∈ s.seen_ids) :
    _validate_uniqueness r rid s =
      (s, some (.validationError ("Duplicate ID: " ++ pyStr rid))) := by
  simp [_validate_uniqueness, h]

/-- Uniqueness with a fresh id but an already-seen normalized URL: the id is
registered, then the duplicate-URL error is raised. -/
theorem uniq_dup_url (r : Record) (rid : Val) (s : VState) (u : String)
    (hu : dget r "url" = some (Val.str u)) (hut : truthy (Val.str u) = true)
    (h1 : rid ∉ s.seen_ids) (h2 : normalize_url u ∈ s.seen_urls) :
    _validate_uniqueness r rid s =
      ({ s with seen_ids := s.seen_ids ++ [rid] },
        some (.validationError ("Duplicate URL: " ++ u))) := by
  simp [_validate_uniqueness, pyGet, dgetD, hu, hut, h1, h2]

/-- With string summary and why_useful the phrase loop never raises. -/
theorem phraseLoop_snd (rid : Val) (a b : String) :
    ∀ ps, (phraseLoop rid (Val.str a) (Val.str b) ps).2 = Option.none := by
  intro ps
  induction ps with
  | nil => rfl
  | cons p ps ih =>
    simp only [phraseLoop]
    split <;> [simpa using ih; skip]
    split <;> simpa using ih

/-- Content quality on a well-typed record: warnings only. -/
theorem quality_pass (r : Record) (rid : Val) (s : VState)
    (sv wv tv : String)
    (hsum : dget r "summary" = some (Val.str sv))
    (hwhy : dget r "why_useful" = some (Val.str wv))
    (htitle : dget r "title" = some (Val.str tv)) :
    (_validate_content_quality r rid s).2 = Option.none
      ∧ (_validate_content_quality r rid s).1.errors = s.errors
      ∧ (_validate_content_quality r rid s).1.seen_ids = s.seen_ids
      ∧ (_validate_content_quality r rid s).1.seen_urls = s.seen_urls := by
  have hp := phraseLoop_snd rid sv wv generic_phrases
  simp only [_validate_content_quality, dgetD, hsum, hwhy, htitle, Option.getD_some, pyLen]
  refine ⟨hp, ?_, ?_, ?_⟩ <;> split_ifs <;> rfl

/-- URL format on a URL with scheme and host: warnings only. -/
theorem url_pass (r : Record) (rid : Val) (s : VState) (u : String)
    (hu : dget r "url" = some (Val.str u))
    (hsch : (urlSchemeNetloc u).1.isEmpty = false)
    (hnet : (urlSchemeNetloc u).2.isEmpty = false) :
    (_validate_url_format r rid s).2 = Option.none
      ∧ (_validate_url_format r rid s).1.errors = s.errors
      ∧ (_validate_url_format r rid s).1.seen_ids = s.seen_ids
      ∧ (_validate_url_format r rid s).1.seen_urls = s.seen_urls := by
  have hut : truthy (Val.str u) = true := truthy_url_of_scheme u hsch
  refine ⟨?_, ?_, ?_, ?_⟩ <;>
    (simp only [_validate_url_format, pyGet, dgetD, hu, Option.getD_some, hut,
      Bool.not_true, hsch, hnet, Bool.or_self, Bool.false_eq_true, if_false] <;>
     (try split_ifs) <;> rfl)

/-- `ridOf` is the record's own id when present. -/
theorem ridOf_eq (r : Record) (i : Nat) (v : Val) (h : dget r "id" = some v) :
    ridOf r i = v := by
  simp [ridOf, dgetD, h]

set_option maxRecDepth 20000 in
/-- A valid record whose id and normalized URL are fresh validates cleanly:
no error is appended, and exactly its id and normalized URL get
registered. -/
theorem validate_valid_fresh (r : Record) (i : Nat) (s : VState) (ids u : String)
    (hv : recordValid r = true)
    (hid : dget r "id" = some (Val.str ids))
    (hu : dget r "url" = some (Val.str u))
    (hfid : Val.str ids ∉ s.seen_ids)
    (hfu : normalize_url u ∉ s.seen_urls) :
    ∃ s1, validate_resource r i s = .ok s1 ∧ s1.errors = s.errors
      ∧ s1.seen_ids = s.seen_ids ++ [Val.str ids]
      ∧ s1.seen_urls = s.seen_urls ++ [normalize_url u] := by
  obtain ⟨-, ⟨t1, htitle⟩, ⟨u1, hurl, hsch, hnet⟩, -, -, -, -, -, -, -,
    ⟨sm, hsum⟩, ⟨wy, hwhy⟩, -, -, -⟩ := recordValid_facts r hv
  have hu1 : u1 = u := by
    rw [hu] at hurl
    simpa using (Option.some.inj hurl).symm
  rw [hu1] at hsch hnet
  have hrid : ridOf r i = Val.str ids := ridOf_eq r i _ hid
  have h1 := required_pass r s hv
  have h2 := types_pass r s hv
  obtain ⟨s3, h3, he3, hi3, hu3⟩ := values_pass r (ridOf r i) s hv
  have hut : truthy (Val.str u) = true := truthy_url_of_scheme u hsch
  have h4 := uniq_fresh r (ridOf r i) s3 u hu hut
    (by rw [hi3, hrid]; exact hfid) (by rw [hu3]; exact hfu)
  set s4 : VState := { s3 with
    seen_ids := s3.seen_ids ++ [ridOf r i],
    seen_urls := s3.seen_urls ++ [normalize_url u] } with hs4
  obtain ⟨q2, qe, qi, qu⟩ := quality_pass r (ridOf r i) s4 sm wy t1 hsum hwhy htitle
  set s5 : VState := (_validate_content_quality r (ridOf r i) s4).1 with hs5
  have hq : _validate_content_quality r (ridOf r i) s4 = (s5, Option.none) := by
    rw [hs5, ← q2]
  obtain ⟨w2, we, wi, wu⟩ := url_pass r (ridOf r i) s5 u hu hsch hnet
  set s6 : VState := (_validate_url_format r (ridOf r i) s5).1 with hs6
  have hw : _validate_url_format r (ridOf r i) s5 = (s6, Option.none) := by
    rw [hs6, ← w2]
  refine ⟨s6, ?_, ?_, ?_, ?_⟩
  · simp only [validate_resource, h1, h2, h3, h4, hq, hw]
  · rw [we, qe, hs4]
    exact he3
  · rw [wi, qi, hs4]
    show s3.seen_ids ++ [ridOf r i] = s.seen_ids ++ [Val.str ids]
    rw [hi3, hrid]
  · rw [wu, qu, hs4]
    show s3.seen_urls ++ [normalize_url u] = s.seen_urls ++ [normalize_url u]
    rw [hu3]

/-- A valid record whose id was already seen gets exactly the duplicate-id
error attributed to that id, and registers nothing. -/
theorem validate_valid_dupid (r : Record) (i : Nat) (s : VState) (ids : String)
    (hv : recordValid r = true)
    (hid : dget r "id" = some (Val.str ids))
    (hdup : Val.str ids ∈ s.seen_ids) :
    ∃ s1, validate_resource r i s = .ok s1
      ∧ s1.errors = s.errors
          ++ ["Resource \x27" ++ ids ++ "\x27: " ++ ("Duplicate ID: " ++ ids)]
      ∧ s1.seen_ids = s.seen_ids ∧ s1.seen_urls = s.seen_urls := by
  have hrid : ridOf r i = Val.str ids := ridOf_eq r i _ hid
  have h1 := required_pass r s hv
  have h2 := types_pass r s hv
  obtain ⟨s3, h3, he3, hi3, hu3⟩ := values_pass r (ridOf r i) s hv
  have h4 := uniq_dup_id r (ridOf r i) s3 (by rw [hrid, hi3]; exact hdup)
  refine ⟨{ s3 with
    errors := s3.errors ++ ["Resource \x27" ++ pyStr (ridOf r i) ++ "\x27: "
      ++ ("Duplicate ID: " ++ pyStr (ridOf r i))] }, ?_, ?_, ?_, ?_⟩
  · simp only [validate_resource, h1, h2, h3, h4, catchVE]
  · show s3.errors ++ _ = _
    rw [he3, hrid]
    simp [pyStr]
  · exact hi3
  · exact hu3

/-- A valid record with a fresh id but an already-seen normalized URL gets
exactly the duplicate-URL error; its id is registered (the code registers
the id before examining the URL), its URL is not. -/
theorem validate_valid_dupurl (r : Record) (i : Nat) (s : VState) (ids u : String)
    (hv : recordValid r = true)
    (hid : dget r "id" = some (Val.str ids))
    (hu : dget r "url" = some (Val.str u))
    (hfid : Val.str ids ∉ s.seen_ids)
    (hdup : normalize_url u ∈ s.seen_urls) :
    ∃ s1, validate_resource r i s = .ok s1
      ∧ s1.errors = s.errors
          ++ ["Resource \x27" ++ ids ++ "\x27: " ++ ("Duplicate URL: " ++ u)]
      ∧ s1.seen_ids = s.seen_ids ++ [Val.str ids] ∧ s1.seen_urls = s.seen_urls := by
  obtain ⟨-, -, ⟨u1, hurl, hsch, hnet⟩, -, -, -, -, -, -, -, -, -, -, -, -⟩ :=
    recordValid_facts r hv
  have hu1 : u1 = u := by
    rw [hu] at hurl
    simpa using (Option.some.inj hurl).symm
  rw [hu1] at hsch hnet
  have hut : truthy (Val.str u) = true := truthy_url_of_scheme u hsch
  have hrid : ridOf r i = Val.str ids := ridOf_eq r i _ hid
  have h1 := required_pass r s hv
  have h2 := types_pass r s hv
  obtain ⟨s3, h3, he3, hi3, hu3⟩ := values_pass r (ridOf r i) s hv
  have h4 := uniq_dup_url r (ridOf r i) s3 u hu hut
    (by rw [hrid, hi3]; exact hfid) (by rw [hu3]; exact hdup)
  refine ⟨{ s3 with
    seen_ids := s3.seen_ids ++ [ridOf r i],
    errors := s3.errors ++ ["Resource \x27" ++ pyStr (ridOf r i) ++ "\x27: "
      ++ ("Duplicate URL: " ++ u)] }, ?_, ?_, ?_, ?_⟩
  · simp only [validate_resource, h1, h2, h3, h4, catchVE]
  · show s3.errors ++ _ = _
    rw [he3, hrid]
    simp [pyStr]
  · show s3.seen_ids ++ [ridOf r i] = _
    rw [hi3, hrid]
  · exact hu3

/-- C1: a record that is valid (all required fields present, string/list/
integer fields correctly typed, domain/type/maturity/effort drawn from
their enumerations, well-formed dates, an id and a normalized URL not seen
earlier in the run, and a URL with scheme and host) produces no entry in
the validator's errors sequence. -/
theorem c1_valid_record_no_errors (r : Record) (i : Nat) (s : VState) (ids u : String)
    (hv : recordValid r = true)
    (hid : dget r "id" = some (Val.str ids))
    (hu : dget r "url" = some (Val.str u))
    (hfid : Val.str ids ∉ s.seen_ids)
    (hfu : normalize_url u ∉ s.seen_urls) :
    ∃ s1, validate_resource r i s = .ok s1 ∧ s1.errors = s.errors := by
  obtain ⟨s1, h, he, -, -⟩ := validate_valid_fresh r i s ids u hv hid hu hfid hfu
  exact ⟨s1, h, he⟩

/-- A concrete fully valid record used by several witnesses. -/
def sampleValid : Record :=
  [("id", Val.str "res-a"), ("title", Val.str "Tool A"),
   ("url", Val.str "https://a.com/x"),
   ("domain", Val.list [Val.str "Security"]), ("type", Val.str "Tool"),
   ("maturity", Val.str "Emerging"), ("effort", Val.str "Low"),
   ("tags", Val.list [Val.str "sql", Val.str "etl"]),
   ("published", Val.str "2024-01-15"), ("last_updated", Val.str "2024-03"),
   ("summary", Val.str "A solid static analysis helper for infrastructure code."),
   ("why_useful", Val.str "Cuts review time significantly on big repos."),
   ("good_for", Val.list [Val.str "production"])]

/-- Witness for C1 at a concrete valid record and the empty state. -/
theorem c1_witness :
    ∃ s1, validate_resource sampleValid 0 emptyVState = .ok s1
      ∧ s1.errors = emptyVState.errors :=
  c1_valid_record_no_errors sampleValid 0 emptyVState "res-a" "https://a.com/x"
    (by decide) (by decide) (by decide) (by decide) (by decide)

/-- C5: when two otherwise-valid records carry the same id (the first
occurrence starting from a state that has not seen that id or the first
record's URL), the first occurrence produces no error and the second
occurrence produces exactly one duplicate-id error, attributed to that
id. -/
theorem c5_duplicate_id_flags_second_only (s : VState) (r1 r2 : Record)
    (i1 i2 : Nat) (ids u1 : String)
    (hv1 : recordValid r1 = true) (hv2 : recordValid r2 = true)
    (hid1 : dget r1 "id" = some (Val.str ids))
    (hid2 : dget r2 "id" = some (Val.str ids))
    (hu1 : dget r1 "url" = some (Val.str u1))
    (hfid : Val.str ids ∉ s.seen_ids)
    (hfu : normalize_url u1 ∉ s.seen_urls) :
    ∃ s1 s2, validate_resource r1 i1 s = .ok s1 ∧ s1.errors = s.errors
      ∧ validate_resource r2 i2 s1 = .ok s2
      ∧ s2.errors = s.errors
          ++ ["Resource \x27" ++ ids ++ "\x27: " ++ ("Duplicate ID: " ++ ids)] := by
  obtain ⟨s1, h1, he1, hi1, -⟩ := validate_valid_fresh r1 i1 s ids u1 hv1 hid1 hu1 hfid hfu
  obtain ⟨s2, h2, he2, -, -⟩ := validate_valid_dupid r2 i2 s1 ids hv2 hid2
    (by rw [hi1]; simp)
  exact ⟨s1, s2, h1, he1, h2, by rw [he2, he1]⟩

/-- A second concrete valid record sharing `sampleValid`'s id. -/
def sampleDupId : Record :=
  [("id", Val.str "res-a"), ("title", Val.str "Tool B"),
   ("url", Val.str "https://b.com/y"),
   ("domain", Val.list [Val.str "Security"]), ("type", Val.str "Tool"),
   ("maturity", Val.str "Emerging"), ("effort", Val.str "Low"),
   ("tags", Val.list [Val.str "sql"]),
   ("published", Val.str "2024-02-10"), ("last_updated", Val.str "2024-04"),
   ("summary", Val.str "Another helper whose identifier collides with the first."),
   ("why_useful", Val.str "Demonstrates the duplicate identifier path."),
   ("good_for", Val.list [Val.str "learning"])]

/-- Witness for C5 at two concrete records with the same id. -/
theorem c5_witness :
    ∃ s1 s2, validate_resource sampleValid 0 emptyVState = .ok s1
      ∧ s1.errors = emptyVState.errors
      ∧ validate_resource sampleDupId 1 s1 = .ok s2
      ∧ s2.errors = emptyVState.errors
          ++ ["Resource \x27" ++ "res-a" ++ "\x27: " ++ ("Duplicate ID: " ++ "res-a")] :=
  c5_duplicate_id_flags_second_only emptyVState sampleValid sampleDupId 0 1
    "res-a" "https://a.com/x" (by decide) (by decide) (by decide) (by decide)
    (by decide) (by decide) (by decide)

/-! ### Shape lemmas: which exceptions each check can produce, and what
state it can touch.  These drive the no-uncaught-exception analysis. -/

/-- The required-fields check never changes the state. -/
theorem required_state (r : Record) (s : VState) :
    (_validate_required_fields r s).1 = s := by
  simp only [_validate_required_fields]
  split <;> rfl

/-- The type check never changes the state. -/
theorem types_state (r : Record) (s : VState) :
    (_validate_field_types r s).1 = s := by
  simp only [_validate_field_types]
  (repeat' split) <;> rfl

/-- The value check touches only the warnings. -/
theorem values_state (r : Record) (rid : Val) (s : VState) :
    (_validate_field_values r rid s).1.errors = s.errors
      ∧ (_validate_field_values r rid s).1.seen_ids = s.seen_ids
      ∧ (_validate_field_values r rid s).1.seen_urls = s.seen_urls := by
  simp only [_validate_field_values]
  refine ⟨?_, ?_, ?_⟩ <;> ((repeat' split) <;> rfl)

/-- The uniqueness check never touches the errors or warnings. -/
theorem uniq_state (r : Record) (rid : Val) (s : VState) :
    (_validate_uniqueness r rid s).1.errors = s.errors
      ∧ (_validate_uniqueness r rid s).1.warnings = s.warnings := by
  simp only [_validate_uniqueness]
  refine ⟨?_, ?_⟩ <;> ((repeat' split) <;> rfl)

/-- The content-quality check touches only the warnings. -/
theorem quality_state (r : Record) (rid : Val) (s : VState) :
    (_validate_content_quality r rid s).1.errors = s.errors
      ∧ (_validate_content_quality r rid s).1.seen_ids = s.seen_ids
      ∧ (_validate_content_quality r rid s).1.seen_urls = s.seen_urls := by
  simp only [_validate_content_quality]
  refine ⟨?_, ?_, ?_⟩ <;> ((repeat' split) <;> rfl)

/-- The URL-format check touches only the warnings. -/
theorem urlfmt_state (r : Record) (rid : Val) (s : VState) :
    (_validate_url_format r rid s).1.errors = s.errors
      ∧ (_validate_url_format r rid s).1.seen_ids = s.seen_ids
      ∧ (_validate_url_format r rid s).1.seen_urls = s.seen_urls := by
  simp only [_validate_url_format]
  refine ⟨?_, ?_, ?_⟩ <;> ((repeat' split) <;> rfl)

/-- The required-fields check raises only `ValidationError`. -/
theorem required_err_shape (r : Record) (s : VState) :
    (_validate_required_fields r s).2 = Option.none
      ∨ ∃ m, (_validate_required_fields r s).2 = some (.validationError m) := by
  simp only [_validate_required_fields]
  split <;> simp

/-- The type check raises only `ValidationError`. -/
theorem types_err_shape (r : Record) (s : VState) :
    (_validate_field_types r s).2 = Option.none
      ∨ ∃ m, (_validate_field_types r s).2 = some (.validationError m) := by
  simp only [_validate_field_types]
  (repeat' split) <;> simp

/-- The field is absent or holds a string. -/
def strOrAbsent (r : Record) (f : String) : Bool :=
  !(dmem r f) || isStrV (dgetD r f Val.none)

/-- The field is absent or holds a list. -/
def listOrAbsent (r : Record) (f : String) : Bool :=
  !(dmem r f) || isListV (dgetD r f Val.none)

/-- `datesStrOk`: the two date fields are strings whenever present — the
condition under which `strptime` receives a `str` argument. -/
def datesStrOk (r : Record) : Bool :=
  strOrAbsent r "published" && strOrAbsent r "last_updated"

/-- A passed type check certifies every string-typed field string-or-absent
and every list-typed field list-or-absent. -/
theorem types_none_facts (r : Record) (s : VState)
    (h : (_validate_field_types r s).2 = Option.none) :
    (∀ f ∈ string_fields, strOrAbsent r f = true)
      ∧ (∀ f ∈ list_fields, listOrAbsent r f = true) := by
  unfold _validate_field_types at h
  rcases h1 : string_fields.find? (fun f => dmem r f && !isStrV (dgetD r f Val.none)) with
    _ | f1
  · rcases h2 : list_fields.find? (fun f => dmem r f && !isListV (dgetD r f Val.none)) with
      _ | f2
    · constructor
      · intro f hf
        have := List.find?_eq_none.mp h1 f hf
        simp only [strOrAbsent]
        rcases hm : dmem r f with _ | _ <;> simp_all
      · intro f hf
        have := List.find?_eq_none.mp h2 f hf
        simp only [listOrAbsent]
        rcases hm : dmem r f with _ | _ <;> simp_all
    · rw [h1, h2] at h
      simp at h
  · rw [h1] at h
    simp at h

/-- `dgetD` with a string default yields a string for a string-or-absent field. -/
theorem strOrAbsentD (r : Record) (f : String) (d : String)
    (h : strOrAbsent r f = true) :
    ∃ sv, dgetD r f (Val.str d) = Val.str sv := by
  unfold strOrAbsent at h
  cases hd : dget r f with
  | none => exact ⟨d, by simp [dgetD, hd]⟩
  | some v =>
    cases v <;> simp_all [dmem, dgetD, isStrV]

/-- `dgetD` with a list default yields a list for a list-or-absent field. -/
theorem listOrAbsentD (r : Record) (f : String) (d : List Val)
    (h : listOrAbsent r f = true) :
    ∃ l, dgetD r f (Val.list d) = Val.list l := by
  unfold listOrAbsent at h
  cases hd : dget r f with
  | none => exact ⟨d, by simp [dgetD, hd]⟩
  | some v =>
    cases v <;> simp_all [dmem, dgetD, isListV]

/-- With a string-or-absent field, one date check raises only
`ValidationError`. -/
theorem checkDate_shape (r : Record) (f : String) (h : strOrAbsent r f = true) :
    checkDateField r f = Option.none
      ∨ ∃ m, checkDateField r f = some (.validationError m) := by
  cases hd : dget r f with
  | none => simp [checkDateField, hd]
  | some v =>
    cases v with
    | str sv =>
      simp only [checkDateField, hd]
      split <;> simp
    | int n => simp [strOrAbsent, dmem, dgetD, hd, isStrV] at h
    | list l => simp [strOrAbsent, dmem, dgetD, hd, isStrV] at h
    | none => simp [strOrAbsent, dmem, dgetD, hd, isStrV] at h

/-- With list-or-absent `domain`/`tags` and string dates, the value check
raises only `ValidationError`. -/
theorem values_err_shape (r : Record) (rid : Val) (s : VState)
    (hdom : listOrAbsent r "domain" = true) (htags : listOrAbsent r "tags" = true)
    (hdates : datesStrOk r = true) :
    (_validate_field_values r rid s).2 = Option.none
      ∨ ∃ m, (_validate_field_values r rid s).2 = some (.validationError m) := by
  obtain ⟨dl, hdl⟩ := listOrAbsentD r "domain" [] hdom
  obtain ⟨tl, htl⟩ := listOrAbsentD r "tags" [] htags
  simp only [datesStrOk, Bool.and_eq_true] at hdates
  rcases checkDate_shape r "published" hdates.1 with hc1 | ⟨m1, hc1⟩ <;>
    rcases checkDate_shape r "last_updated" hdates.2 with hc2 | ⟨m2, hc2⟩ <;>
    · simp only [_validate_field_values, hdl, htl, pyLen, pyIter, hc1, hc2]
      (repeat' split) <;> simp

/-- With a string-or-absent URL, uniqueness raises only `ValidationError`. -/
theorem uniq_err_shape (r : Record) (rid : Val) (s : VState)
    (hurl : strOrAbsent r "url" = true) :
    (_validate_uniqueness r rid s).2 = Option.none
      ∨ ∃ m, (_validate_uniqueness r rid s).2 = some (.validationError m) := by
  cases hd : dget r "url" with
  | none =>
    simp only [_validate_uniqueness, pyGet, dgetD, hd, Option.getD_none]
    (repeat' split) <;> simp_all [truthy]
  | some v =>
    cases v with
    | str u =>
      simp only [_validate_uniqueness, pyGet, dgetD, hd, Option.getD_some]
      (repeat' split) <;> simp
    | int n => simp [strOrAbsent, dmem, dgetD, hd, isStrV] at hurl
    | list l => simp [strOrAbsent, dmem, dgetD, hd, isStrV] at hurl
    | none => simp [strOrAbsent, dmem, dgetD, hd, isStrV] at hurl

/-- With string-or-absent summary/why_useful/title, content quality never
raises. -/
theorem quality_snd_shape (r : Record) (rid : Val) (s : VState)
    (hsum : strOrAbsent r "summary" = true)
    (hwhy : strOrAbsent r "why_useful" = true)
    (htit : strOrAbsent r "title" = true) :
    (_validate_content_quality r rid s).2 = Option.none := by
  obtain ⟨sv, hsv⟩ := strOrAbsentD r "summary" "" hsum
  obtain ⟨wv, hwv⟩ := strOrAbsentD r "why_useful" "" hwhy
  obtain ⟨tv, htv⟩ := strOrAbsentD r "title" "" htit
  have hp := phraseLoop_snd rid sv wv generic_phrases
  simp only [_validate_content_quality, hsv, hwv, htv, pyLen]
  exact hp

/-- With a string-or-absent URL, the URL-format check raises only
`ValidationError`. -/
theorem url_err_shape (r : Record) (rid : Val) (s : VState)
    (hurl : strOrAbsent r "url" = true) :
    (_validate_url_format r rid s).2 = Option.none
      ∨ ∃ m, (_validate_url_format r rid s).2 = some (.validationError m) := by
  cases hd : dget r "url" with
  | none => simp [_validate_url_format, pyGet, dgetD, hd, truthy]
  | some v =>
    cases v with
    | str u =>
      simp only [_validate_url_format, pyGet, dgetD, hd, Option.getD_some]
      (repeat' split) <;> simp
    | int n => simp [strOrAbsent, dmem, dgetD, hd, isStrV] at hurl
    | list l => simp [strOrAbsent, dmem, dgetD, hd, isStrV] at hurl
    | none => simp [strOrAbsent, dmem, dgetD, hd, isStrV] at hurl

/-- C2 (amended): provided `published`/`last_updated` hold strings whenever
present, validating any record terminates without an exception escaping the
boundary, and at most one error finding — attributed to the record's
identifier — is appended. -/
theorem c2_amended_no_uncaught (r : Record) (i : Nat) (s : VState)
    (hdates : datesStrOk r = true) :
    ∃ s1, validate_resource r i s = .ok s1
      ∧ (s1.errors = s.errors ∨ ∃ m, s1.errors = s.errors
          ++ ["Resource \x27" ++ pyStr (ridOf r i) ++ "\x27: " ++ m]) := by
  rcases hra : _validate_required_fields r s with ⟨sa, ea⟩
  have hsa : sa = s := by
    have h := required_state r s
    rw [hra] at h
    exact h
  rw [hsa] at hra
  rcases ea with _ | e1
  · rcases hta : _validate_field_types r s with ⟨sb, eb⟩
    have hsb : sb = s := by
      have h := types_state r s
      rw [hta] at h
      exact h
    rw [hsb] at hta
    rcases eb with _ | e2
    · have hfacts := types_none_facts r s (by rw [hta])
      have hdomL : listOrAbsent r "domain" = true :=
        hfacts.2 "domain" (by simp [list_fields])
      have htagsL : listOrAbsent r "tags" = true :=
        hfacts.2 "tags" (by simp [list_fields])
      have hurlS : strOrAbsent r "url" = true :=
        hfacts.1 "url" (by simp [string_fields])
      have hsumS : strOrAbsent r "summary" = true :=
        hfacts.1 "summary" (by simp [string_fields])
      have hwhyS : strOrAbsent r "why_useful" = true :=
        hfacts.1 "why_useful" (by simp [string_fields])
      have htitS : strOrAbsent r "title" = true :=
        hfacts.1 "title" (by simp [string_fields])
      rcases hva : _validate_field_values r (ridOf r i) s with ⟨sc, ec⟩
      have hscall := values_state r (ridOf r i) s
      rw [hva] at hscall
      have hscE : sc.errors = s.errors := hscall.1
      rcases ec with _ | e3
      · rcases hua : _validate_uniqueness r (ridOf r i) sc with ⟨sd, ed⟩
        have hsdall := uniq_state r (ridOf r i) sc
        rw [hua] at hsdall
        have hsdE : sd.errors = sc.errors := hsdall.1
        rcases ed with _ | e4
        · have hq2 := quality_snd_shape r (ridOf r i) sd hsumS hwhyS htitS
          rcases hqa : _validate_content_quality r (ridOf r i) sd with ⟨se, eq1⟩
          rw [hqa] at hq2
          have heq1 : eq1 = Option.none := hq2
          subst heq1
          have hseall := quality_state r (ridOf r i) sd
          rw [hqa] at hseall
          have hseE : se.errors = sd.errors := hseall.1
          rcases hwa : _validate_url_format r (ridOf r i) se with ⟨sf, ef⟩
          have hsfall := urlfmt_state r (ridOf r i) se
          rw [hwa] at hsfall
          have hsfE : sf.errors = se.errors := hsfall.1
          rcases ef with _ | e5
          · refine ⟨sf, ?_, Or.inl ?_⟩
            · simp only [validate_resource, hra, hta, hva, hua, hqa, hwa]
            · rw [hsfE, hseE, hsdE, hscE]
          · rcases url_err_shape r (ridOf r i) se hurlS with hsh | ⟨m, hsh⟩
            · rw [hwa] at hsh
              simp at hsh
            · rw [hwa] at hsh
              have he5 : e5 = .validationError m := by simpa using hsh
              subst he5
              refine ⟨{ sf with errors := sf.errors ++ ["Resource \x27"
                  ++ pyStr (ridOf r i) ++ "\x27: " ++ m] }, ?_, Or.inr ⟨m, ?_⟩⟩
              · simp only [validate_resource, hra, hta, hva, hua, hqa, hwa, catchVE]
              · show sf.errors ++ _ = s.errors ++ _
                rw [hsfE, hseE, hsdE, hscE]
        · rcases uniq_err_shape r (ridOf r i) sc hurlS with hsh | ⟨m, hsh⟩
          · rw [hua] at hsh
            simp at hsh
          · rw [hua] at hsh
            have he4 : e4 = .validationError m := by simpa using hsh
            subst he4
            refine ⟨{ sd with errors := sd.errors ++ ["Resource \x27"
                ++ pyStr (ridOf r i) ++ "\x27: " ++ m] }, ?_, Or.inr ⟨m, ?_⟩⟩
            · simp only [validate_resource, hra, hta, hva, hua, catchVE]
            · show sd.errors ++ _ = s.errors ++ _
              rw [hsdE, hscE]
      · rcases values_err_shape r (ridOf r i) s hdomL htagsL hdates with hsh | ⟨m, hsh⟩
        · rw [hva] at hsh
          simp at hsh
        · rw [hva] at hsh
          have he3 : e3 = .validationError m := by simpa using hsh
          subst he3
          refine ⟨{ sc with errors := sc.errors ++ ["Resource \x27"
              ++ pyStr (ridOf r i) ++ "\x27: " ++ m] }, ?_, Or.inr ⟨m, ?_⟩⟩
          · simp only [validate_resource, hra, hta, hva, catchVE]
          · show sc.errors ++ _ = s.errors ++ _
            rw [hscE]
    · rcases types_err_shape r s with hsh | ⟨m, hsh⟩
      · rw [hta] at hsh
        simp at hsh
      · rw [hta] at hsh
        have he2 : e2 = .validationError m := by simpa using hsh
        subst he2
        refine ⟨{ s with errors := s.errors ++ ["Resource \x27"
            ++ pyStr (ridOf r i) ++ "\x27: " ++ m] }, ?_, Or.inr ⟨m, rfl⟩⟩
        simp only [validate_resource, hra, hta, catchVE]
  · rcases required_err_shape r s with hsh | ⟨m, hsh⟩
    · rw [hra] at hsh
      simp at hsh
    · rw [hra] at hsh
      have he1 : e1 = .validationError m := by simpa using hsh
      subst he1
      refine ⟨{ s with errors := s.errors ++ ["Resource \x27"
          ++ pyStr (ridOf r i) ++ "\x27: " ++ m] }, ?_, Or.inr ⟨m, rfl⟩⟩
      simp only [validate_resource, hra, catchVE]

/-- A record identical to `sampleValid` except that `published` holds the
integer 2023 (as unquoted YAML would give): every check before the date
parse succeeds, then `strptime` receives a non-string. -/
def sampleIntDate : Record :=
  [("id", Val.str "res-d"), ("title", Val.str "Tool D"),
   ("url", Val.str "https://d.com/x"),
   ("domain", Val.list [Val.str "Security"]), ("type", Val.str "Tool"),
   ("maturity", Val.str "Emerging"), ("effort", Val.str "Low"),
   ("tags", Val.list [Val.str "sql"]),
   ("published", Val.int 2023), ("last_updated", Val.str "2024-03"),
   ("summary", Val.str "A record whose published field is a bare integer year."),
   ("why_useful", Val.str "Shows the integer-date failure mode clearly."),
   ("good_for", Val.list [Val.str "learning"])]

/-- C2 (counterexample): validating `sampleIntDate` raises a `TypeError`
past the validator's boundary — the claim that validation never raises for
records of any shape is false at this record. -/
theorem c2_counterexample :
    validate_resource sampleIntDate 0 emptyVState
      = .error (.typeError "strptime() argument 1 must be str, not int") := by
  rfl

/-- Witness for the amended C2 at a record with no fields at all. -/
theorem c2_witness :
    ∃ s1, validate_resource ([] : Record) 0 emptyVState = .ok s1
      ∧ (s1.errors = emptyVState.errors ∨ ∃ m, s1.errors = emptyVState.errors
          ++ ["Resource \x27" ++ pyStr (ridOf ([] : Record) 0) ++ "\x27: " ++ m]) :=
  c2_amended_no_uncaught ([] : Record) 0 emptyVState (by decide)

/-- A caught `ValidationError` only appends to the errors; the seen-sets
are those of the state at the raise. -/
theorem catchVE_ok_state (rid : Val) (sx : VState) (e : PyErr) (s1 : VState)
    (h : catchVE rid sx e = .ok s1) :
    s1.seen_ids = sx.seen_ids ∧ s1.seen_urls = sx.seen_urls := by
  cases e with
  | validationError m =>
    simp only [catchVE, Except.ok.injEq] at h
    rw [← h]
    exact ⟨rfl, rfl⟩
  | typeError m => simp [catchVE] at h
  | attributeError m => simp [catchVE] at h

/-- C9: a record that fails a rule applied before the uniqueness rule
(required fields, field types, or value constraints) registers neither its
id nor its normalized URL; consequently a later valid record matching no
earlier registered id/URL — in particular one reusing the failing record's
id or URL — is not flagged as a duplicate. -/
theorem c9_early_failure_registers_nothing (r : Record) (i : Nat) (s s1 : VState)
    (hok : validate_resource r i s = .ok s1)
    (hfail : (_validate_required_fields r s).2.isSome = true
      ∨ (_validate_field_types r s).2.isSome = true
      ∨ (_validate_field_values r (ridOf r i) s).2.isSome = true) :
    s1.seen_ids = s.seen_ids ∧ s1.seen_urls = s.seen_urls
      ∧ ∀ r2 i2 ids2 u2, recordValid r2 = true →
          dget r2 "id" = some (Val.str ids2) →
          dget r2 "url" = some (Val.str u2) →
          Val.str ids2 ∉ s.seen_ids → normalize_url u2 ∉ s.seen_urls →
          ∃ s2, validate_resource r2 i2 s1 = .ok s2 ∧ s2.errors = s1.errors := by
  have hseen : s1.seen_ids = s.seen_ids ∧ s1.seen_urls = s.seen_urls := by
    rcases hra : _validate_required_fields r s with ⟨sa, ea⟩
    have hsa : sa = s := by
      have h := required_state r s
      rw [hra] at h
      exact h
    rw [hsa] at hra
    rcases ea with _ | e1
    · rcases hta : _validate_field_types r s with ⟨sb, eb⟩
      have hsb : sb = s := by
        have h := types_state r s
        rw [hta] at h
        exact h
      rw [hsb] at hta
      rcases eb with _ | e2
      · rcases hva : _validate_field_values r (ridOf r i) s with ⟨sc, ec⟩
        have hscall := values_state r (ridOf r i) s
        rw [hva] at hscall
        have hscI : sc.seen_ids = s.seen_ids := hscall.2.1
        have hscU : sc.seen_urls = s.seen_urls := hscall.2.2
        rcases ec with _ | e3
        · exfalso
          rcases hfail with hf | hf | hf
          · rw [hra] at hf
            simp at hf
          · rw [hta] at hf
            simp at hf
          · rw [hva] at hf
            simp at hf
        · have hvr : validate_resource r i s = catchVE (ridOf r i) sc e3 := by
            simp only [validate_resource, hra, hta, hva]
          rw [hvr] at hok
          have h := catchVE_ok_state _ _ _ _ hok
          exact ⟨h.1.trans hscI, h.2.trans hscU⟩
      · have hvr : validate_resource r i s = catchVE (ridOf r i) s e2 := by
          simp only [validate_resource, hra, hta]
        rw [hvr] at hok
        exact catchVE_ok_state _ _ _ _ hok
    · have hvr : validate_resource r i s = catchVE (ridOf r i) s e1 := by
        simp only [validate_resource, hra]
      rw [hvr] at hok
      exact catchVE_ok_state _ _ _ _ hok
  refine ⟨hseen.1, hseen.2, ?_⟩
  intro r2 i2 ids2 u2 hv2 hid2 hu2 hf1 hf2
  obtain ⟨s2, h2, he2, -, -⟩ := validate_valid_fresh r2 i2 s1 ids2 u2 hv2 hid2 hu2
    (by rw [hseen.1]; exact hf1) (by rw [hseen.2]; exact hf2)
  exact ⟨s2, h2, he2⟩

/-- Witness for C9: the empty record fails the required-fields rule from
the empty state; its diagnostic id is registered nowhere. -/
theorem c9_witness :
    (⟨["Resource \x27resource_0\x27: Missing required fields: [\x27id\x27, \x27title\x27, \x27url\x27, \x27domain\x27, \x27type\x27, \x27maturity\x27, \x27effort\x27, \x27tags\x27, \x27published\x27, \x27last_updated\x27, \x27summary\x27, \x27why_useful\x27, \x27good_for\x27]"],
        [], [], []⟩ : VState).seen_ids = emptyVState.seen_ids
    ∧ (⟨["Resource \x27resource_0\x27: Missing required fields: [\x27id\x27, \x27title\x27, \x27url\x27, \x27domain\x27, \x27type\x27, \x27maturity\x27, \x27effort\x27, \x27tags\x27, \x27published\x27, \x27last_updated\x27, \x27summary\x27, \x27why_useful\x27, \x27good_for\x27]"],
        [], [], []⟩ : VState).seen_urls = emptyVState.seen_urls
    ∧ ∀ r2 i2 ids2 u2, recordValid r2 = true →
        dget r2 "id" = some (Val.str ids2) →
        dget r2 "url" = some (Val.str u2) →
        Val.str ids2 ∉ emptyVState.seen_ids →
        normalize_url u2 ∉ emptyVState.seen_urls →
        ∃ s2, validate_resource r2 i2
            (⟨["Resource \x27resource_0\x27: Missing required fields: [\x27id\x27, \x27title\x27, \x27url\x27, \x27domain\x27, \x27type\x27, \x27maturity\x27, \x27effort\x27, \x27tags\x27, \x27published\x27, \x27last_updated\x27, \x27summary\x27, \x27why_useful\x27, \x27good_for\x27]"],
              [], [], []⟩ : VState) = .ok s2
          ∧ s2.errors = (⟨["Resource \x27resource_0\x27: Missing required fields: [\x27id\x27, \x27title\x27, \x27url\x27, \x27domain\x27, \x27type\x27, \x27maturity\x27, \x27effort\x27, \x27tags\x27, \x27published\x27, \x27last_updated\x27, \x27summary\x27, \x27why_useful\x27, \x27good_for\x27]"],
              [], [], []⟩ : VState).errors :=
  c9_early_failure_registers_nothing ([] : Record) 0 emptyVState _
    (by rfl) (Or.inl (by decide))

/-! ### C4: URL duplicate detection vs. the specification's reference
normalization -/

/-- Strip one leading `www.`. -/
def stripLeadWww (l : List Char) : List Char :=
  if leadsWith ("www.").data l then l.drop 4 else l

/-- Split at the first `://`, when present. -/
def findSchemeSep : List Char → Option (List Char × List Char)
  | [] => Option.none
  | c :: cs =>
    if leadsWith ("://").data (c :: cs) then some ([], (c :: cs).drop 3)
    else
      match findSchemeSep cs with
      | some p => some (c :: p.1, p.2)
      | Option.none => Option.none

/-- Modelled from the spec: the reference URL normalization the claim
describes — lower-case the URL, strip the trailing slash, and remove a
leading `www.` prefix of the host part (what follows `://`). -/
def refNormalizeUrl (url : String) : String :=
  let low := (lowerS url).data
  let l1 := if low.getLast? = some '/' then low.dropLast else low
  String.mk (match findSchemeSep l1 with
    | some p => p.1 ++ ("://").data ++ stripLeadWww p.2
    | Option.none => stripLeadWww l1)

/-- A fresh value is not in the one-longer seen list when it differs from
the appended element. -/
theorem notMem_append_singleton {a b : Val} {l : List Val}
    (h1 : a ∉ l) (h2 : a ≠ b) : a ∉ l ++ [b] := by
  simp [h1, h2]

/-- C4 (amended): with two otherwise-valid records with distinct fresh
ids and fresh URLs, the second is flagged as a duplicate URL exactly when
the code's normalization — lower-case, strip all trailing slashes, delete
every occurrence of the substring `www.` — makes the two URLs equal. -/
theorem c4_amended_url_dup_iff_code_norm (s : VState) (r1 r2 : Record)
    (i1 i2 : Nat) (ids1 ids2 u1 u2 : String)
    (hv1 : recordValid r1 = true) (hv2 : recordValid r2 = true)
    (hid1 : dget r1 "id" = some (Val.str ids1))
    (hid2 : dget r2 "id" = some (Val.str ids2))
    (hu1 : dget r1 "url" = some (Val.str u1))
    (hu2 : dget r2 "url" = some (Val.str u2))
    (hne : ids1 ≠ ids2)
    (hf1 : Val.str ids1 ∉ s.seen_ids) (hf2 : Val.str ids2 ∉ s.seen_ids)
    (hfu1 : normalize_url u1 ∉ s.seen_urls)
    (hfu2 : normalize_url u2 ∉ s.seen_urls) :
    ∃ s1 s2, validate_resource r1 i1 s = .ok s1
      ∧ validate_resource r2 i2 s1 = .ok s2
      ∧ s2.errors = s.errors ++ (if normalize_url u1 = normalize_url u2 then
          ["Resource \x27" ++ ids2 ++ "\x27: " ++ ("Duplicate URL: " ++ u2)]
        else []) := by
  obtain ⟨s1, h1, he1, hi1, hu1s⟩ :=
    validate_valid_fresh r1 i1 s ids1 u1 hv1 hid1 hu1 hf1 hfu1
  have hidfresh : Val.str ids2 ∉ s1.seen_ids := by
    rw [hi1]
    exact notMem_append_singleton hf2 (fun h => hne ((Val.str.inj h).symm))
  by_cases hnorm : normalize_url u1 = normalize_url u2
  · obtain ⟨s2, h2, he2, -, -⟩ := validate_valid_dupurl r2 i2 s1 ids2 u2 hv2 hid2 hu2
      hidfresh (by rw [hu1s, ← hnorm]; simp)
    exact ⟨s1, s2, h1, h2, by rw [he2, he1, if_pos hnorm]⟩
  · obtain ⟨s2, h2, he2, -, -⟩ := validate_valid_fresh r2 i2 s1 ids2 u2 hv2 hid2 hu2
      hidfresh (by
        rw [hu1s]
        intro h
        rcases List.mem_append.mp h with h | h
        · exact hfu2 h
        · exact hnorm (List.mem_singleton.mp h).symm)
    refine ⟨s1, s2, h1, h2, ?_⟩
    rw [he2, he1, if_neg hnorm]
    simp

/-- Witness for the amended C4: the spec's own example pair is flagged. -/
def c4pair1 : Record :=
  [("id", Val.str "res-b"), ("title", Val.str "Tool B"),
   ("url", Val.str "https://Foo.com/Bar/"),
   ("domain", Val.list [Val.str "Security"]), ("type", Val.str "Tool"),
   ("maturity", Val.str "Emerging"), ("effort", Val.str "Low"),
   ("tags", Val.list [Val.str "sql"]),
   ("published", Val.str "2024-01-15"), ("last_updated", Val.str "2024-03"),
   ("summary", Val.str "A record whose URL differs only in case and a final slash."),
   ("why_useful", Val.str "Exercises the URL normalization duplicate check."),
   ("good_for", Val.list [Val.str "learning"])]

def c4pair2 : Record :=
  [("id", Val.str "res-c"), ("title", Val.str "Tool C"),
   ("url", Val.str "https://foo.com/bar"),
   ("domain", Val.list [Val.str "Security"]), ("type", Val.str "Tool"),
   ("maturity", Val.str "Emerging"), ("effort", Val.str "Low"),
   ("tags", Val.list [Val.str "sql"]),
   ("published", Val.str "2024-01-15"), ("last_updated", Val.str "2024-03"),
   ("summary", Val.str "A record whose URL equals the previous one once normalized."),
   ("why_useful", Val.str "Exercises the URL normalization duplicate check."),
   ("good_for", Val.list [Val.str "learning"])]

theorem c4_witness :
    ∃ s1 s2, validate_resource c4pair1 0 emptyVState = .ok s1
      ∧ validate_resource c4pair2 1 s1 = .ok s2
      ∧ s2.errors = emptyVState.errors
          ++ (if normalize_url "https://Foo.com/Bar/" = normalize_url "https://foo.com/bar"
            then ["Resource \x27" ++ "res-c" ++ "\x27: "
              ++ ("Duplicate URL: " ++ "https://foo.com/bar")] else []) :=
  c4_amended_url_dup_iff_code_norm emptyVState c4pair1 c4pair2 0 1
    "res-b" "res-c" "https://Foo.com/Bar/" "https://foo.com/bar"
    (by decide) (by decide) (by decide) (by decide) (by decide) (by decide)
    (by decide) (by decide) (by decide) (by decide) (by decide)

/-- Records for the C4 counterexample: their URLs differ under the spec's
reference normalization (the `www.` sits in the path, not as a host
prefix) yet the code flags them as duplicates, because `_normalize_url`
deletes every occurrence of `www.`. -/
def c4path1 : Record :=
  [("id", Val.str "res-b"), ("title", Val.str "Tool B"),
   ("url", Val.str "https://a.com/www.b"),
   ("domain", Val.list [Val.str "Security"]), ("type", Val.str "Tool"),
   ("maturity", Val.str "Emerging"), ("effort", Val.str "Low"),
   ("tags", Val.list [Val.str "sql"]),
   ("published", Val.str "2024-01-15"), ("last_updated", Val.str "2024-03"),
   ("summary", Val.str "A record whose URL has the letters www dot in its path."),
   ("why_useful", Val.str "Shows the overly broad substring deletion clearly."),
   ("good_for", Val.list [Val.str "learning"])]

def c4path2 : Record :=
  [("id", Val.str "res-c"), ("title", Val.str "Tool C"),
   ("url", Val.str "https://a.com/b"),
   ("domain", Val.list [Val.str "Security"]), ("type", Val.str "Tool"),
   ("maturity", Val.str "Emerging"), ("effort", Val.str "Low"),
   ("tags", Val.list [Val.str "sql"]),
   ("published", Val.str "2024-01-15"), ("last_updated", Val.str "2024-03"),
   ("summary", Val.str "A record whose URL is the previous one without the prefix."),
   ("why_useful", Val.str "Shows the overly broad substring deletion clearly."),
   ("good_for", Val.list [Val.str "learning"])]

/-- C4 (counterexample): the two URLs are NOT equal under the reference
normalization of the claim, yet validating the two records flags the
second as a duplicate URL — so code normalization ≠ reference
normalization, and the claimed iff fails at this input. -/
theorem c4_counterexample :
    refNormalizeUrl "https://a.com/www.b" ≠ refNormalizeUrl "https://a.com/b"
    ∧ validateList [c4path1, c4path2] 0 emptyVState = .ok
        ⟨["Resource \x27res-c\x27: Duplicate URL: https://a.com/b"], [],
         [Val.str "res-b", Val.str "res-c"], ["https://a.com/b"]⟩ := by
  constructor
  · decide
  · rfl

/-! ### The differencer claims (C3, C8, C10) -/

/-- A member of the id set has a witnessing record. -/
theorem exists_of_inIds {rs : List Record} {v : Val} (h : inIds rs v = true) :
    ∃ r ∈ rs, pyGet r "id" = v := by
  unfold inIds at h
  rw [Bool.and_eq_true] at h
  obtain ⟨r, hr, hbeq⟩ := List.any_eq_true.mp h.2
  exact ⟨r, hr, beq_iff_eq.mp hbeq⟩

/-- The record found for an id actually carries that id. -/
theorem get_by_id_id (rs : List Record) (v : Val) (h : inIds rs v = true) :
    pyGet (get_resource_by_id rs v) "id" = v := by
  unfold get_resource_by_id
  cases hf : rs.find? (fun r => pyGet r "id" == v) with
  | none =>
    exfalso
    obtain ⟨r, hr, hre⟩ := exists_of_inIds h
    have := List.find?_eq_none.mp hf r hr
    simp [hre] at this
  | some r0 =>
    have hb := List.find?_some hf
    simp only [beq_iff_eq] at hb
    show pyGet r0 "id" = v
    exact hb

/-- Ids in the enumerated intersection are truthy. -/
theorem truthy_of_inIds {rs : List Record} {v : Val} (h : inIds rs v = true) :
    truthy v = true := by
  unfold inIds at h
  rw [Bool.and_eq_true] at h
  exact h.1

/-- C3: for an id present in both snapshots, if the two records found for
it agree on every field of the fixed comparison set (title, url, domains,
type, maturity, tags, summary, why_useful, good_for — and hence in
particular when only `github_stars` changed), no entry with that id
appears in `modified_resources`; if any comparison field differs, the
current record for that id appears in `modified_resources`. -/
theorem c3_modified_iff_comparison_fields_differ (order : List Val)
    (current previous : List Record) (w : List String) (v : Val)
    (h : idSetEnum order current previous)
    (hc : inIds current v = true) (hp : inIds previous v = true) :
    (differsOn (get_resource_by_id current v) (get_resource_by_id previous v) = false →
      ∀ r ∈ (analyze_resources_changes order current previous w).modified_resources,
        pyGet r "id" ≠ v)
    ∧ (differsOn (get_resource_by_id current v) (get_resource_by_id previous v) = true →
      get_resource_by_id current v
        ∈ (analyze_resources_changes order current previous w).modified_resources) := by
  constructor
  · intro hagree r hr hid
    simp only [analyze_resources_changes] at hr
    rw [List.mem_filterMap] at hr
    obtain ⟨v2, hv2, hf⟩ := hr
    by_cases hd : differsOn (get_resource_by_id current v2)
        (get_resource_by_id previous v2) = true
    · rw [if_pos hd] at hf
      obtain ⟨hc2, -⟩ := h.2.1 v2 hv2
      have hidr : pyGet (get_resource_by_id current v2) "id" = v2 :=
        get_by_id_id _ _ hc2
      have hrv : r = get_resource_by_id current v2 := (Option.some.inj hf).symm
      have hveq : v2 = v := by rw [hrv, hidr] at hid; exact hid
      rw [hveq] at hd
      rw [hd] at hagree
      simp at hagree
    · rw [if_neg hd] at hf
      exact Option.noConfusion hf
  · intro hdif
    have hvo : v ∈ order := by
      obtain ⟨r, hr, hre⟩ := exists_of_inIds hc
      have hmem := h.2.2 r hr (by rw [hre]; exact hc) (by rw [hre]; exact hp)
      rw [hre] at hmem
      exact hmem
    simp only [analyze_resources_changes]
    rw [List.mem_filterMap]
    exact ⟨v, hvo, by rw [if_pos hdif]⟩

/-- Concrete snapshots for the C3 witness: the only change to id `a` is
its star count, the only change to id `b` is its title. -/
def c3curA : Record :=
  [("id", Val.str "a"), ("title", Val.str "Alpha"), ("github_stars", Val.int 900)]

def c3prevA : Record :=
  [("id", Val.str "a"), ("title", Val.str "Alpha"), ("github_stars", Val.int 500)]

/-- Witness for C3: a star-count-only change produces no modified entry
for that id. -/
theorem c3_witness :
    (differsOn (get_resource_by_id [c3curA] (Val.str "a"))
        (get_resource_by_id [c3prevA] (Val.str "a")) = false →
      ∀ r ∈ (analyze_resources_changes [Val.str "a"] [c3curA] [c3prevA] []).modified_resources,
        pyGet r "id" ≠ Val.str "a")
    ∧ (differsOn (get_resource_by_id [c3curA] (Val.str "a"))
        (get_resource_by_id [c3prevA] (Val.str "a")) = true →
      get_resource_by_id [c3curA] (Val.str "a")
        ∈ (analyze_resources_changes [Val.str "a"] [c3curA] [c3prevA] []).modified_resources) :=
  c3_modified_iff_comparison_fields_differ [Val.str "a"] [c3curA] [c3prevA] []
    (Val.str "a") (by decide) (by decide) (by decide)

/-- C8 (amended): `new_resources` is a sublist of the current collection
(declaration order) holding exactly the new-id records, `removed_resources`
is a sublist of the previous collection holding exactly the removed-id
records, and `validation_warnings` is exactly the first 10 supplied
warnings; the order of `modified_resources` follows the iteration order of
the id-set intersection, which the source does not fix. -/
theorem c8_amended_output_order (order : List Val) (current previous : List Record)
    (w : List String) :
    (analyze_resources_changes order current previous w).new_resources.Sublist current
    ∧ (∀ r, r ∈ (analyze_resources_changes order current previous w).new_resources
        ↔ r ∈ current ∧ (inIds current (pyGet r "id")
            && !(inIds previous (pyGet r "id"))) = true)
    ∧ (analyze_resources_changes order current previous w).removed_resources.Sublist previous
    ∧ (∀ r, r ∈ (analyze_resources_changes order current previous w).removed_resources
        ↔ r ∈ previous ∧ (inIds previous (pyGet r "id")
            && !(inIds current (pyGet r "id"))) = true)
    ∧ (analyze_resources_changes order current previous w).validation_warnings = w.take 10
    ∧ (analyze_resources_changes order current previous w).validation_warnings.length ≤ 10 := by
  refine ⟨List.filter_sublist _, fun r => List.mem_filter,
    List.filter_sublist _, fun r => List.mem_filter, rfl, ?_⟩
  simp only [analyze_resources_changes, List.length_take]
  exact min_le_left _ _

/-- Snapshot records for the C8 counterexample: both ids modified. -/
def c8curA : Record := [("id", Val.str "a"), ("title", Val.str "Alpha2")]

def c8curB : Record := [("id", Val.str "b"), ("title", Val.str "Beta2")]

def c8prevA : Record := [("id", Val.str "a"), ("title", Val.str "Alpha")]

def c8prevB : Record := [("id", Val.str "b"), ("title", Val.str "Beta")]

/-- C8 (counterexample): with a legitimate enumeration of the id-set
intersection that lists `b` before `a`, `modified_resources` comes out as
[B, A] although the current collection declares A before B — the claimed
"current declaration order" for `modified_resources` fails. -/
theorem c8_counterexample :
    idSetEnum [Val.str "b", Val.str "a"] [c8curA, c8curB] [c8prevA, c8prevB]
    ∧ (analyze_resources_changes [Val.str "b", Val.str "a"]
        [c8curA, c8curB] [c8prevA, c8prevB] []).modified_resources = [c8curB, c8curA]
    ∧ [c8curB, c8curA] ≠ [c8curA, c8curB] := by
  refine ⟨by decide, by rfl, by decide⟩

/-- C10: a record whose id is missing, `None`, or empty (falsy) is
invisible to the differencer: it belongs to none of `new_resources`,
`modified_resources`, `removed_resources`. -/
theorem c10_falsy_id_invisible (order : List Val) (current previous : List Record)
    (w : List String) (h : idSetEnum order current previous) (r : Record)
    (hfalsy : truthy (pyGet r "id") = false) :
    r ∉ (analyze_resources_changes order current previous w).new_resources
    ∧ r ∉ (analyze_resources_changes order current previous w).modified_resources
    ∧ r ∉ (analyze_resources_changes order current previous w).removed_resources := by
  refine ⟨?_, ?_, ?_⟩
  · intro hr
    simp only [analyze_resources_changes] at hr
    rw [List.mem_filter] at hr
    have hand := hr.2
    rw [Bool.and_eq_true] at hand
    have ht := truthy_of_inIds hand.1
    rw [hfalsy] at ht
    simp at ht
  · intro hr
    simp only [analyze_resources_changes] at hr
    rw [List.mem_filterMap] at hr
    obtain ⟨v2, hv2, hf⟩ := hr
    obtain ⟨hc2, -⟩ := h.2.1 v2 hv2
    by_cases hd : differsOn (get_resource_by_id current v2)
        (get_resource_by_id previous v2) = true
    · rw [if_pos hd] at hf
      have hrv : r = get_resource_by_id current v2 := (Option.some.inj hf).symm
      have hidr : pyGet (get_resource_by_id current v2) "id" = v2 :=
        get_by_id_id _ _ hc2
      have ht := truthy_of_inIds hc2
      rw [← hidr, ← hrv] at ht
      rw [hfalsy] at ht
      simp at ht
    · rw [if_neg hd] at hf
      exact Option.noConfusion hf
  · intro hr
    simp only [analyze_resources_changes] at hr
    rw [List.mem_filter] at hr
    have hand := hr.2
    rw [Bool.and_eq_true] at hand
    have ht := truthy_of_inIds hand.1
    rw [hfalsy] at ht
    simp at ht

/-- A record with an empty id, for the C10 witness. -/
def c10emptyId : Record := [("id", Val.str ""), ("title", Val.str "Ghost")]

/-- Witness for C10 at concrete snapshots containing a record with an
empty id. -/
theorem c10_witness :
    c10emptyId ∉ (analyze_resources_changes [Val.str "a"] [c3curA, c10emptyId]
        [c3prevA, c10emptyId] []).new_resources
    ∧ c10emptyId ∉ (analyze_resources_changes [Val.str "a"] [c3curA, c10emptyId]
        [c3prevA, c10emptyId] []).modified_resources
    ∧ c10emptyId ∉ (analyze_resources_changes [Val.str "a"] [c3curA, c10emptyId]
        [c3prevA, c10emptyId] []).removed_resources :=
  c10_falsy_id_invisible [Val.str "a"] [c3curA, c10emptyId] [c3prevA, c10emptyId]
    [] (by decide) c10emptyId (by decide)

/-! ### The ranker claim (C7) -/

/-- The first component of a computed sort key is the maturity rank. -/
theorem get_sort_key_mat (r : Record) (k : SortKey) (h : get_sort_key r = .ok k) :
    k.mat = maturityRankGet (dgetD r "maturity" (Val.str "")) := by
  simp only [get_sort_key] at h
  cases hpd : parse_date (pyOr (pyGet r "last_updated")
      (pyOr (pyGet r "published") (pyGet r "added"))) with
  | error e =>
    rw [hpd] at h
    simp at h
  | ok ymd =>
    rw [hpd] at h
    cases hst : starsKeyE (pyGet r "github_stars") with
    | error e =>
      rw [hst] at h
      simp at h
    | ok st =>
      rw [hst] at h
      cases hgf : goodForKeyE (dgetD r "good_for" (Val.list [])) with
      | error e =>
        rw [hgf] at h
        simp at h
      | ok gf =>
        rw [hgf] at h
        cases htt : dgetD r "title" (Val.str "") with
        | str t =>
          rw [htt] at h
          have hk := Except.ok.inj h
          rw [← hk]
        | int n =>
          rw [htt] at h
          simp at h
        | list l =>
          rw [htt] at h
          simp at h
        | none =>
          rw [htt] at h
          simp at h

/-- A maturity value in the rank table ranks at most 3. -/
theorem maturityRankGet_le_three (v : Val)
    (h : v ∈ MATURITY_RANK.map (fun p => Val.str p.1)) :
    maturityRankGet v ≤ 3 := by
  simp only [MATURITY_RANK, List.map, List.mem_cons, List.not_mem_nil, or_false] at h
  rcases h with h | h | h | h <;> subst h <;> decide

/-- A maturity value outside the rank table gets the 99 sentinel. -/
theorem maturityRankGet_unranked (v : Val)
    (h : v ∉ MATURITY_RANK.map (fun p => Val.str p.1)) :
    maturityRankGet v = 99 := by
  unfold maturityRankGet
  cases hf : MATURITY_RANK.find? (fun p => v == Val.str p.1) with
  | none => rfl
  | some p =>
    exfalso
    have hb := List.find?_some hf
    have hm := List.mem_of_find?_eq_some hf
    apply h
    rw [List.mem_map]
    refine ⟨p, hm, ?_⟩
    simp only [beq_iff_eq] at hb
    exact hb.symm

/-- C7 (amended): the maturity component of the composite key places every
record whose maturity lies outside the ranker's own table
(Battle-tested, Adopted, Emerging, Experimental — note the table is not
the validator's `VALID_MATURITY`) after every record whose maturity lies
inside it: the in-table record's key sorts strictly earlier. -/
theorem c7_amended_unranked_maturity_sorts_last (r1 r2 : Record) (k1 k2 : SortKey)
    (h1 : get_sort_key r1 = .ok k1) (h2 : get_sort_key r2 = .ok k2)
    (hm1 : dgetD r1 "maturity" (Val.str "") ∈ MATURITY_RANK.map (fun p => Val.str p.1))
    (hm2 : dgetD r2 "maturity" (Val.str "") ∉ MATURITY_RANK.map (fun p => Val.str p.1)) :
    sortKeyLt k1 k2 = true := by
  have e1 := get_sort_key_mat r1 k1 h1
  have e2 := get_sort_key_mat r2 k2 h2
  have l1 : k1.mat ≤ 3 := by
    rw [e1]
    exact maturityRankGet_le_three _ hm1
  have l2 : k2.mat = 99 := by
    rw [e2]
    exact maturityRankGet_unranked _ hm2
  have hlt : k1.mat < k2.mat := by omega
  unfold sortKeyLt
  simp [hlt]

/-- Records for the C7 counterexample and witness. -/
def c7adopted : Record := [("maturity", Val.str "Adopted"), ("title", Val.str "A")]

def c7emerging : Record := [("maturity", Val.str "Emerging"), ("title", Val.str "E")]

def c7novel : Record := [("maturity", Val.str "Novel"), ("title", Val.str "N")]

/-- C7 (counterexample): `Adopted` is outside the validator's maturity
enumeration while `Emerging` is inside it, yet the record with maturity
`Adopted` sorts strictly BEFORE the `Emerging` one — the claim that every
record with a maturity outside (Battle-tested, Emerging, Experimental)
sorts after every record with an enumerated maturity is false. -/
theorem c7_counterexample :
    ("Adopted" ∉ VALID_MATURITY) ∧ ("Emerging" ∈ VALID_MATURITY)
    ∧ get_sort_key c7adopted = .ok ⟨1, 2208988800, 0, 5, ['a']⟩
    ∧ get_sort_key c7emerging = .ok ⟨2, 2208988800, 0, 5, ['e']⟩
    ∧ sortKeyLt ⟨2, 2208988800, 0, 5, ['e']⟩ ⟨1, 2208988800, 0, 5, ['a']⟩ = false
    ∧ sortKeyLt ⟨1, 2208988800, 0, 5, ['a']⟩ ⟨2, 2208988800, 0, 5, ['e']⟩ = true := by
  refine ⟨by decide, by decide, by rfl, by rfl, by decide, by decide⟩

/-- Witness for the amended C7: an in-table maturity against an unranked
one. -/
theorem c7_witness :
    sortKeyLt ⟨2, 2208988800, 0, 5, ['e']⟩ ⟨99, 2208988800, 0, 5, ['n']⟩ = true :=
  c7_amended_unranked_maturity_sorts_last c7emerging c7novel
    ⟨2, 2208988800, 0, 5, ['e']⟩ ⟨99, 2208988800, 0, 5, ['n']⟩
    (by rfl) (by rfl) (by decide) (by decide)

/-! ### The classifier claim (C6) -/

/-- The records of `rs` classified (after tag lowering) under label `l`. -/
def labelFilter (d : String) (rs : List Record) (l : String) : List Record :=
  rs.filter (fun r => match lowerTagsE r with
    | .ok ts => subcatLabel d ts == l
    | .error _ => false)

/-- The label chain is the first-match evaluation of the per-domain rule
table with the domain's fallback. -/
theorem subcatLabel_eq_firstMatch (d : String) (tags : List String) :
    subcatLabel d tags = firstMatchLabel (ruleTable d) (fallbackLabel d) tags := by
  simp only [subcatLabel, ruleTable, fallbackLabel]
  split_ifs <;> simp [firstMatchLabel, *]

/-- The label depends on the tag list only through membership: identical
tag sets receive identical labels. -/
theorem subcatLabel_respects_tagset (d : String) (ts1 ts2 : List String)
    (h : ∀ t, ts1.contains t = ts2.contains t) :
    subcatLabel d ts1 = subcatLabel d ts2 := by
  have hany : ∀ pred : List String, anyTagIn pred ts1 = anyTagIn pred ts2 := by
    intro pred
    unfold anyTagIn
    induction pred with
    | nil => rfl
    | cons p ps ih => rw [List.any_cons, List.any_cons, ih, h p]
  unfold subcatLabel
  simp only [hany]

/-- Bucket lookup at the bucket's own key. -/
theorem lookupGroup_cons_self (k : String) (b : List Record)
    (rest : List (String × List Record)) :
    lookupGroup ((k, b) :: rest) k = b := by
  unfold lookupGroup
  rw [List.find?_cons_of_pos rest (by simp)]

/-- Bucket lookup skips a bucket with a different key. -/
theorem lookupGroup_cons_ne (k1 : String) (b : List Record)
    (rest : List (String × List Record)) (l : String) (h : k1 ≠ l) :
    lookupGroup ((k1, b) :: rest) l = lookupGroup rest l := by
  unfold lookupGroup
  rw [List.find?_cons_of_neg rest (by simpa using h)]

/-- Looking a label up after `addToGroup`. -/
theorem lookup_addToGroup (g : List (String × List Record)) (k l : String) (r : Record) :
    lookupGroup (addToGroup g k r) l
      = if k = l then lookupGroup g l ++ [r] else lookupGroup g l := by
  induction g with
  | nil =>
    by_cases hkl : k = l
    · subst hkl
      simp only [addToGroup, lookupGroup_cons_self, if_pos rfl]
      rfl
    · rw [if_neg hkl]
      simp only [addToGroup]
      rw [lookupGroup_cons_ne k [r] [] l hkl]
  | cons p g ih =>
    obtain ⟨k1, bucket⟩ := p
    simp only [addToGroup]
    by_cases hk1 : k1 = k
    · subst hk1
      have hc : (k1 == k1) = true := by simp
      rw [hc]
      simp only [if_true]
      by_cases hkl : k1 = l
      · subst hkl
        rw [lookupGroup_cons_self, lookupGroup_cons_self, if_pos rfl]
      · rw [lookupGroup_cons_ne k1 (bucket ++ [r]) g l hkl,
          lookupGroup_cons_ne k1 bucket g l hkl, if_neg hkl]
    · have hb : (k1 == k) = false := by simpa using hk1
      rw [hb]
      simp only [Bool.false_eq_true, if_false]
      by_cases hkl : k1 = l
      · subst hkl
        rw [lookupGroup_cons_self, lookupGroup_cons_self,
          if_neg (fun hh : k = k1 => hk1 hh.symm)]
      · rw [lookupGroup_cons_ne k1 bucket (addToGroup g k r) l hkl,
          lookupGroup_cons_ne k1 bucket g l hkl, ih]

/-- The grouping loop builds exactly the label-filtered buckets. -/
theorem groupGo_lookup (d : String) (rs : List Record) :
    ∀ g g', groupGo d rs g = .ok g' → ∀ l,
      lookupGroup g' l = lookupGroup g l ++ labelFilter d rs l := by
  induction rs with
  | nil =>
    intro g g' h l
    simp only [groupGo, Except.ok.injEq] at h
    simp [← h, labelFilter]
  | cons r rs ih =>
    intro g g' h l
    simp only [groupGo] at h
    cases hlt : lowerTagsE r with
    | error e =>
      rw [hlt] at h
      simp at h
    | ok ts =>
      rw [hlt] at h
      have hrec := ih (addToGroup g (subcatLabel d ts) r) g' h l
      rw [hrec, lookup_addToGroup]
      simp only [labelFilter, List.filter_cons, hlt]
      by_cases heq : subcatLabel d ts = l
      · have hb : (subcatLabel d ts == l) = true := by simpa using heq
        simp [heq, hb, labelFilter]
      · have hb : (subcatLabel d ts == l) = false := by simpa using heq
        simp [heq, hb, labelFilter]

/-- Membership is invariant under the stable insertion. -/
theorem mem_insertSorted {α : Type} (le : α → α → Bool) (x y : α) (l : List α) :
    y ∈ insertSorted le x l ↔ y = x ∨ y ∈ l := by
  induction l with
  | nil => simp [insertSorted]
  | cons a l ih =>
    simp only [insertSorted]
    split
    · simp [or_comm, or_assoc, or_left_comm]
    · simp [ih]
      tauto

/-- Membership is invariant under the stable sort. -/
theorem mem_sortByLe {α : Type} (le : α → α → Bool) (y : α) (l : List α) :
    y ∈ sortByLe le l ↔ y ∈ l := by
  induction l with
  | nil => simp [sortByLe]
  | cons a l ih => simp [sortByLe, mem_insertSorted, ih]

/-- Decorating with sort keys keeps the records. -/
theorem mapKeyedE_fst (l : List Record) :
    ∀ ps, mapKeyedE l = .ok ps → ps.map Prod.fst = l := by
  induction l with
  | nil =>
    intro ps h
    simp only [mapKeyedE, Except.ok.injEq] at h
    simp [← h]
  | cons r rs ih =>
    intro ps h
    simp only [mapKeyedE] at h
    cases hk : get_sort_key r with
    | error e =>
      rw [hk] at h
      simp at h
    | ok k =>
      rw [hk] at h
      cases hrec : mapKeyedE rs with
      | error e =>
        rw [hrec] at h
        simp at h
      | ok ps0 =>
        rw [hrec] at h
        simp only [Except.ok.injEq] at h
        rw [← h]
        simp [ih ps0 hrec]

/-- Sorting a bucket preserves membership. -/
theorem sortGroupE_mem (l l' : List Record) (h : sortGroupE l = .ok l') (r : Record) :
    r ∈ l' ↔ r ∈ l := by
  unfold sortGroupE at h
  cases hk : mapKeyedE l with
  | error e =>
    rw [hk] at h
    simp at h
  | ok ps =>
    rw [hk] at h
    simp only [Except.ok.injEq] at h
    rw [← h]
    rw [List.mem_map]
    constructor
    · rintro ⟨x, hx, hfx⟩
      have hx2 : x ∈ ps := (mem_sortByLe keyedLe x ps).mp hx
      have : r ∈ ps.map Prod.fst := List.mem_map.mpr ⟨x, hx2, hfx⟩
      rw [mapKeyedE_fst l ps hk] at this
      exact this
    · intro hr
      have : r ∈ ps.map Prod.fst := by rw [mapKeyedE_fst l ps hk]; exact hr
      obtain ⟨x, hx, hfx⟩ := List.mem_map.mp this
      exact ⟨x, (mem_sortByLe keyedLe x ps).mpr hx, hfx⟩

/-- The final bucket-sorting pass preserves each label's members. -/
theorem sortAllGroupsE_lookup (g : List (String × List Record)) :
    ∀ g', sortAllGroupsE g = .ok g' → ∀ l r,
      (r ∈ lookupGroup g' l ↔ r ∈ lookupGroup g l) := by
  induction g with
  | nil =>
    intro g' h l r
    simp only [sortAllGroupsE, Except.ok.injEq] at h
    rw [← h]
  | cons p rest ih =>
    intro g' h l r
    obtain ⟨k, bucket⟩ := p
    simp only [sortAllGroupsE] at h
    cases hs : sortGroupE bucket with
    | error e =>
      rw [hs] at h
      simp at h
    | ok bucket' =>
      rw [hs] at h
      cases hrest : sortAllGroupsE rest with
      | error e =>
        rw [hrest] at h
        simp at h
      | ok rest' =>
        rw [hrest] at h
        simp only [Except.ok.injEq] at h
        rw [← h]
        by_cases hkl : k = l
        · subst hkl
          rw [lookupGroup_cons_self, lookupGroup_cons_self]
          exact sortGroupE_mem bucket bucket' hs r
        · rw [lookupGroup_cons_ne k bucket' rest' l hkl,
            lookupGroup_cons_ne k bucket rest l hkl]
          exact ih rest' hrest l r

/-- C6: under a successful run of `group_by_subcategory`, (1) a record
lands in the bucket labeled `l` exactly when it is in the input and the
first-match label of its lowered tags is `l`; (2) the label chain equals
first-match evaluation of the per-domain ordered rule table with the
domain's fallback (case-insensitivity living in the tag lowering); (3) the
label is a function of the tag set alone, so two records with identical
tag sets in the same domain always receive the same label, regardless of
position; and (4) each record receives exactly one label. -/
theorem c6_classifier_first_match_unique (resources : List Record) (domain : String)
    (groups : List (String × List Record))
    (h : group_by_subcategory resources domain = .ok groups) :
    (∀ r l, r ∈ lookupGroup groups l ↔ (r ∈ resources
        ∧ ∃ ts, lowerTagsE r = .ok ts ∧ subcatLabel domain ts = l))
    ∧ (∀ d ts, subcatLabel d ts = firstMatchLabel (ruleTable d) (fallbackLabel d) ts)
    ∧ (∀ d ts1 ts2, (∀ t, ts1.contains t = ts2.contains t) →
        subcatLabel d ts1 = subcatLabel d ts2)
    ∧ (∀ r l1 l2, r ∈ lookupGroup groups l1 → r ∈ lookupGroup groups l2 → l1 = l2) := by
  have hmem : ∀ r l, r ∈ lookupGroup groups l ↔ (r ∈ resources
      ∧ ∃ ts, lowerTagsE r = .ok ts ∧ subcatLabel domain ts = l) := by
    intro r l
    unfold group_by_subcategory at h
    cases hg : groupGo domain resources [] with
    | error e =>
      rw [hg] at h
      simp at h
    | ok g0 =>
      rw [hg] at h
      rw [sortAllGroupsE_lookup g0 groups h l r]
      rw [groupGo_lookup domain resources [] g0 hg l]
      have hnil : lookupGroup [] l = [] := rfl
      rw [hnil, List.nil_append]
      unfold labelFilter
      rw [List.mem_filter]
      constructor
      · rintro ⟨hr, hp⟩
        refine ⟨hr, ?_⟩
        cases hlt : lowerTagsE r with
        | error e =>
          rw [hlt] at hp
          simp at hp
        | ok ts =>
          rw [hlt] at hp
          exact ⟨ts, rfl, by simpa using hp⟩
      · rintro ⟨hr, ts, hlt, hlab⟩
        refine ⟨hr, ?_⟩
        rw [hlt]
        simpa using hlab
  refine ⟨hmem, subcatLabel_eq_firstMatch, subcatLabel_respects_tagset, ?_⟩
  intro r l1 l2 h1 h2
  obtain ⟨-, ts1, hts1, hl1⟩ := (hmem r l1).mp h1
  obtain ⟨-, ts2, hts2, hl2⟩ := (hmem r l2).mp h2
  rw [hts1] at hts2
  have : ts1 = ts2 := Except.ok.inj hts2
  rw [← hl1, ← hl2, this]

/-- A concrete record with an agent tag (upper-case, to exercise the
case-insensitive match). -/
def c6rec : Record :=
  [("id", Val.str "r1"), ("tags", Val.list [Val.str "Agents", Val.str "zzz"])]

/-- Witness for C6 at a one-record collection in the AI-Engineering
domain. -/
theorem c6_witness :
    (∀ r l, r ∈ lookupGroup [("Agent Systems & Integration", [c6rec])] l
        ↔ (r ∈ [c6rec]
          ∧ ∃ ts, lowerTagsE r = .ok ts ∧ subcatLabel "AI-Engineering" ts = l))
    ∧ (∀ d ts, subcatLabel d ts = firstMatchLabel (ruleTable d) (fallbackLabel d) ts)
    ∧ (∀ d ts1 ts2, (∀ t, ts1.contains t = ts2.contains t) →
        subcatLabel d ts1 = subcatLabel d ts2)
    ∧ (∀ r l1 l2, r ∈ lookupGroup [("Agent Systems & Integration", [c6rec])] l1 →
        r ∈ lookupGroup [("Agent Systems & Integration", [c6rec])] l2 → l1 = l2) :=
  c6_classifier_first_match_unique [c6rec] "AI-Engineering"
    [("Agent Systems & Integration", [c6rec])] (by rfl)

end KB
